import Mathlib

/-!
# Attendance tracker client (`face-backend/static/ui.js`)

A shallow embedding of the browser script that drives enrolment and scanning,
and the properties of it that the specification relies on.

Modelling conventions.

* A JavaScript value is a `JSVal`, the shape of what `JSON.parse` yields.
  Objects are association lists of their own data properties in enumeration
  order; the script only reads the keys `ok`, `msg`, `matched`, `name`, `score`,
  `geofence`, `within`, `distance_m`, `reason`, none of which is inherited from
  a built-in prototype, so a key that is not an own property reads as
  `undefined`.
* A Number is a `JSNum`: `NaN`, an infinity, or the decimal literal it was read
  from (JSON text, a form field, a geolocation reading).  `JSNum.dec neg m e`
  stands for the binary64 value nearest to `±m·10^e`.  Printing a Number
  (Number::toString) is the engine's business: the formatter is a field of the
  environment of a run, and every statement holds for every formatter.
* A string is a sequence of Unicode scalar values.
* A thrown value is a `JSError` (an `Error` object, of which only `message` is
  read).  The messages of the errors the engine itself raises are fields of the
  environment.
* The page contains the elements the script dereferences unconditionally
  (`cam`, `code`, `frames`, `enrollMsg`, `type`, `scanMsg`); the value of a form
  field is a string.  The threshold field (`threshold` or `th`) is optional, as
  the script itself tests for it.
* `await` is sequencing; the effects of a run are collected in an outcome
  record (texts assigned to the message element, request sent, reply received).
-/

namespace AttendanceUI

/-! ## Numbers -/

/-- A JavaScript Number, kept as the decimal it was read from. -/
inductive JSNum where
  | nan
  | inf (neg : Bool)
  | dec (neg : Bool) (mant : Nat) (exp : Int)
  deriving DecidableEq, Repr

/-- True when the binary64 value nearest to `m·10^e` is zero, i.e. when
`m·10^e ≤ 2^-1075` (half of the least subnormal; the tie rounds to even). -/
def roundsToZero (m : Nat) (e : Int) : Bool :=
  m == 0 || (decide (e < 0) && decide (m * 2 ^ 1075 ≤ 10 ^ (-e).toNat))

/-- True when the binary64 value nearest to `m·10^e` is infinite, i.e. when
`m·10^e ≥ 2^1024 - 2^970`. -/
def roundsToInf (m : Nat) (e : Int) : Bool :=
  if e < 0 then decide ((2 ^ 1024 - 2 ^ 970) * 10 ^ (-e).toNat ≤ m)
  else decide (2 ^ 1024 - 2 ^ 970 ≤ m * 10 ^ e.toNat)

/-- ToBoolean on a Number: false exactly for `NaN`, `+0` and `-0`. -/
def numberTruthy : JSNum → Bool
  | .nan => false
  | .inf _ => true
  | .dec _ m e => !roundsToZero m e

/-- A Number that is neither `NaN` nor an infinity. -/
def numberFinite : JSNum → Bool
  | .nan => false
  | .inf _ => false
  | .dec _ m e => !roundsToInf m e

/-! ## Values -/

/-- A JavaScript value as exchanged with the server or read from the page. -/
inductive JSVal where
  | undefined
  | null
  | bool (b : Bool)
  | num (n : JSNum)
  | str (s : String)
  | arr (items : List JSVal)
  | obj (fields : List (String × JSVal))

/-- A thrown `Error`; only its `message` is ever read. -/
structure JSError where
  message : String
  deriving DecidableEq, Repr

/-- ToBoolean. -/
def truthy : JSVal → Bool
  | .undefined => false
  | .null => false
  | .bool b => b
  | .num n => numberTruthy n
  | .str s => s != ""
  | .arr _ => true
  | .obj _ => true

/-- True for `null` and `undefined` (what `x != null` negates and `??` tests). -/
def nullish : JSVal → Bool
  | .undefined => true
  | .null => true
  | _ => false

/-- Own-property lookup in an association list of fields. -/
def lookupField (key : String) : List (String × JSVal) → JSVal
  | [] => .undefined
  | (k, v) :: rest => if k = key then v else lookupField key rest

/-- True when the fields hold an own property with this key. -/
def hasKey (key : String) : List (String × JSVal) → Bool
  | [] => false
  | (k, _) :: rest => k == key || hasKey key rest

/-- Property read `v.key` for the keys the script uses.  On `null` and
`undefined` JavaScript throws instead; the script models below test for that
case before they read. -/
def getProp (v : JSVal) (key : String) : JSVal :=
  match v with
  | .obj fields => lookupField key fields
  | _ => .undefined

mutual
/-- ToString, as applied by template literals and by `+` with a string, with
`fmt` for Number::toString; `none` when the conversion throws a TypeError.  An
object is converted by the inherited `toString` unless it has an own member
`toString`: that member of a decoded reply is never callable and the inherited
`valueOf` returns the object itself, so the conversion throws.  An array is
converted by joining the conversions of its elements. -/
def toStr (fmt : JSNum → String) : JSVal → Option String
  | .undefined => some "undefined"
  | .null => some "null"
  | .bool b => some (if b then "true" else "false")
  | .num n => some (fmt n)
  | .str s => some s
  | .arr items => joinStr fmt items
  | .obj fields => if hasKey "toString" fields then none else some "[object Object]"
/-- Array join with a comma separator. -/
def joinStr (fmt : JSNum → String) : List JSVal → Option String
  | [] => some ""
  | [x] => elemStr fmt x
  | x :: y :: rest =>
    match elemStr fmt x, joinStr fmt (y :: rest) with
    | some a, some b => some (a ++ "," ++ b)
    | _, _ => none
/-- ToString of an array element: `null` and `undefined` print as empty. -/
def elemStr (fmt : JSNum → String) : JSVal → Option String
  | .undefined => some ""
  | .null => some ""
  | .bool b => some (if b then "true" else "false")
  | .num n => some (fmt n)
  | .str s => some s
  | .arr items => joinStr fmt items
  | .obj fields => if hasKey "toString" fields then none else some "[object Object]"
end

/-- The operator `a || b`. -/
def jsOr (a b : JSVal) : JSVal := if truthy a then a else b

/-- Bool test that `s` begins with the characters of `p`. -/
def beginsWith : List Char → List Char → Bool
  | [], _ => true
  | _ :: _, [] => false
  | p :: ps, c :: cs => p == c && beginsWith ps cs

/-- The text `s` starts with the text `p`. -/
def startsWith (p s : String) : Bool := beginsWith p.data s.data

/-! ## `humanReason` (lines 51-60) -/

/-- Translation of a reason code into the label shown to the user.  The
`switch` compares with strict equality, so only strings can hit a case; the
default returns the argument itself when it is truthy. -/
def humanReason (reason : JSVal) : JSVal :=
  match reason with
  | .str s =>
    if s = "ok" then .str "อยู่ในรัศมี"
    else if s = "gps_accuracy_poor" then .str "ความแม่นยำ GPS ต่ำ"
    else if s = "no_sites_configured" then .str "ยังไม่ได้ตั้งจุดอนุญาต"
    else if s = "outside_radius" then .str "อยู่นอกรัศมี"
    else if s = "face_not_matched" then .str "จำหน้าไม่สำเร็จ"
    else jsOr reason (.str "ไม่ทราบสาเหตุ")
  | _ => jsOr reason (.str "ไม่ทราบสาเหตุ")

/-- The reason enum transmitted by the server. -/
def reasonCodes : List String :=
  ["ok", "gps_accuracy_poor", "no_sites_configured", "outside_radius", "face_not_matched"]

/-! ## String built-ins used by the script -/

/-- The characters `trim`, `parseInt` and `parseFloat` skip: WhiteSpace and
LineTerminator of the language grammar. -/
def isWhiteSpace (c : Char) : Bool :=
  let n := c.toNat
  n == 0x09 || n == 0x0A || n == 0x0B || n == 0x0C || n == 0x0D || n == 0x20 ||
  n == 0xA0 || n == 0x1680 || (0x2000 ≤ n && n ≤ 0x200A) || n == 0x2028 ||
  n == 0x2029 || n == 0x202F || n == 0x205F || n == 0x3000 || n == 0xFEFF

/-- The method `String.prototype.trim`. -/
def trim (s : String) : String :=
  String.mk ((s.data.dropWhile isWhiteSpace).reverse.dropWhile isWhiteSpace).reverse

/-- A decimal digit. -/
def isDigit (c : Char) : Bool := decide (48 ≤ c.toNat) && decide (c.toNat ≤ 57)

/-- The number written by a run of decimal digits. -/
def digitsValue (ds : List Char) : Nat :=
  ds.foldl (fun acc c => 10 * acc + (c.toNat - 48)) 0

/-- Splits an optional leading sign off: the flag is true for `-`. -/
def splitSign : List Char → Bool × List Char
  | [] => (false, [])
  | c :: rest =>
    if c = '-' then (true, rest) else if c = '+' then (false, rest) else (false, c :: rest)

/-- The value of an optional ExponentPart (`e` or `E`, optional sign, at least
one digit) at the head of the input; 0 when there is none. -/
def parseExponent : List Char → Int
  | [] => 0
  | c :: rest =>
    if c = 'e' ∨ c = 'E' then
      let sr := splitSign rest
      let ds := sr.2.takeWhile isDigit
      if ds = [] then 0 else if sr.1 then -(digitsValue ds : Int) else (digitsValue ds : Int)
    else 0

/-- The global `parseFloat`: skips leading white space and reads the longest
leading StrDecimalLiteral; `NaN` when there is none. -/
def parseFloat (s : String) : JSNum :=
  let sr := splitSign (s.data.dropWhile isWhiteSpace)
  let neg := sr.1
  let body := sr.2
  if beginsWith "Infinity".data body then .inf neg
  else
    let ip := body.takeWhile isDigit
    match body.dropWhile isDigit with
    | [] => if ip = [] then .nan else .dec neg (digitsValue ip) 0
    | c :: rest =>
      if c = '.' then
        let fp := rest.takeWhile isDigit
        if ip = [] ∧ fp = [] then .nan
        else .dec neg (digitsValue (ip ++ fp))
          (parseExponent (rest.dropWhile isDigit) - (fp.length : Int))
      else if ip = [] then .nan
      else .dec neg (digitsValue ip) (parseExponent (c :: rest))

/-- The number of binary digits of `z`, by halving; `fuel` bounds the halvings
(`z` itself is enough). -/
def bitLength : Nat → Nat → Nat
  | 0, _ => 0
  | fuel + 1, z => if z = 0 then 0 else bitLength fuel (z / 2) + 1

/-- The integer a binary64 Number holds for the mathematical integer `z`: `z`
itself below `2^53`, else the nearest multiple of the spacing `2^shift` that
leaves 53 significant bits, ties to the even one; `none` when that is `2^1024`
or more, which is `Infinity`. -/
def roundInteger (z : Nat) : Option Nat :=
  if z < 2 ^ 53 then some z
  else
    let shift := bitLength z z - 53
    let q := z / 2 ^ shift
    let r := z % 2 ^ shift
    let q2 := if 2 ^ (shift - 1) < r ∨ (r = 2 ^ (shift - 1) ∧ q % 2 = 1) then q + 1 else q
    if 2 ^ 1024 ≤ q2 * 2 ^ shift then none else some (q2 * 2 ^ shift)

/-- An integer-valued Number, as `parseInt` yields it: `NaN`, an infinity, or a
signed integer that binary64 holds exactly (the sign is kept for `-0`). -/
inductive Count where
  | nan
  | inf (neg : Bool)
  | int (neg : Bool) (k : Nat)
  deriving DecidableEq, Repr

/-- The global `parseInt(s, 10)`: skips leading white space, reads an optional
sign and the longest run of digits, and yields the Number for the integer
written, correctly rounded; `NaN` when there is no digit.  (Past 20 digits the
standard lets an engine round a little differently; the script only compares
the count with counters up to `2^32`, which no rounding can change for a count
of `2^53` or more.) -/
def parseInt (s : String) : Count :=
  let sr := splitSign (s.data.dropWhile isWhiteSpace)
  let ds := sr.2.takeWhile isDigit
  if ds = [] then .nan
  else
    match roundInteger (digitsValue ds) with
    | some k => .int sr.1 k
    | none => .inf sr.1

/-- The Number a count is, for printing. -/
def Count.toNumber : Count → JSNum
  | .nan => .nan
  | .inf neg => .inf neg
  | .int neg k => .dec neg k 0

/-- ToBoolean on a count: false for `NaN`, `+0` and `-0`. -/
def Count.truthy : Count → Bool
  | .nan => false
  | .inf _ => true
  | .int _ k => k != 0

/-- The comparison `i < n` of a loop counter with a count. -/
def Count.exceeds (n : Count) (i : Nat) : Bool :=
  match n with
  | .nan => false
  | .inf neg => !neg
  | .int neg k => !neg && decide (i < k)

/-! ## `JSON.stringify` -/

/-- The lower-case hexadecimal digit of a value below 16. -/
def hexDigit (n : Nat) : Char :=
  if n < 10 then Char.ofNat (48 + n) else Char.ofNat (87 + n)

/-- QuoteJSONString on one character: the quote and the backslash are
escaped with a backslash, the control characters below U+0020 by their short
escape or by `\u00` and two hexadecimal digits. -/
def jsonEscape (c : Char) : List Char :=
  let n := c.toNat
  if n = 0x22 then [Char.ofNat 0x5C, Char.ofNat 0x22]
  else if n = 0x5C then [Char.ofNat 0x5C, Char.ofNat 0x5C]
  else if n = 0x08 then [Char.ofNat 0x5C, 'b']
  else if n = 0x09 then [Char.ofNat 0x5C, 't']
  else if n = 0x0A then [Char.ofNat 0x5C, 'n']
  else if n = 0x0C then [Char.ofNat 0x5C, 'f']
  else if n = 0x0D then [Char.ofNat 0x5C, 'r']
  else if n < 0x20 then [Char.ofNat 0x5C, 'u', '0', '0', hexDigit (n / 16), hexDigit (n % 16)]
  else [c]

/-- QuoteJSONString: the text between double quotes, escaped. -/
def jsonQuote (s : String) : String :=
  String.mk (Char.ofNat 0x22 :: ((s.data.map jsonEscape).flatten ++ [Char.ofNat 0x22]))

/-- The serialisation of a Number: its printed form when finite, `null` for
`NaN` and the infinities. -/
def jsonNumber (fmt : JSNum → String) (n : JSNum) : String :=
  if numberFinite n then fmt n else "null"

/-- The texts joined with commas. -/
def joinComma : List String → String
  | [] => ""
  | [x] => x
  | x :: y :: rest => x ++ "," ++ joinComma (y :: rest)

mutual
/-- SerializeJSONProperty: `none` for `undefined`, which an object omits and an
array writes as `null`. -/
def jsonValue (fmt : JSNum → String) : JSVal → Option String
  | .undefined => none
  | .null => some "null"
  | .bool b => some (if b then "true" else "false")
  | .num n => some (jsonNumber fmt n)
  | .str s => some (jsonQuote s)
  | .arr items => some ("[" ++ joinComma (jsonElements fmt items) ++ "]")
  | .obj fields => some ("\x7b" ++ joinComma (jsonMembers fmt fields) ++ "\x7d")
/-- The serialised elements of an array. -/
def jsonElements (fmt : JSNum → String) : List JSVal → List String
  | [] => []
  | x :: rest => (jsonValue fmt x).getD "null" :: jsonElements fmt rest
/-- The serialised members of an object, in enumeration order. -/
def jsonMembers (fmt : JSNum → String) : List (String × JSVal) → List String
  | [] => []
  | (k, v) :: rest =>
    match jsonValue fmt v with
    | some t => (jsonQuote k ++ ":" ++ t) :: jsonMembers fmt rest
    | none => jsonMembers fmt rest
end

/-- The call `JSON.stringify(o)` on an object with the given fields. -/
def jsonStringify (fmt : JSNum → String) (fields : List (String × JSVal)) : String :=
  "\x7b" ++ joinComma (jsonMembers fmt fields) ++ "\x7d"

/-! ## `getLocationOnce` (lines 39-48) -/

/-- What the browser does with the single position request. -/
inductive GeoOutcome where
  /-- No `geolocation` member in `navigator`. -/
  | unsupported
  /-- The error callback fires (permission denied, unavailable, timeout). -/
  | failed (err : JSError)
  /-- The success callback fires with these `coords`. -/
  | position (latitude longitude accuracy : JSNum)

/-- The object `getLocationOnce` resolves with. -/
structure LocationFix where
  lat : JSNum
  lng : JSNum
  accuracy : JSNum
  deriving DecidableEq

/-- The promise returned by `getLocationOnce`: rejected (`error`) or resolved
(`ok`). -/
def getLocationOnce : GeoOutcome → Except JSError LocationFix
  | .unsupported => .error ⟨"เบราว์เซอร์ไม่รองรับ Geolocation"⟩
  | .failed err => .error err
  | .position latitude longitude accuracy => .ok ⟨latitude, longitude, accuracy⟩

/-! ## `scanOnce` (lines 62-96) -/

/-- What `fetch(...).then(r => r.json())` settles to before the `.catch`. -/
inductive FetchOutcome where
  /-- The request or the JSON decoding of the reply failed with this error. -/
  | failed (err : JSError)
  /-- The reply body decoded to this value. -/
  | json (body : JSVal)

/-- The value bound to `res`: the `.catch` handler turns a failure into the
object `{ok:false, msg:e.message}`. -/
def settle : FetchOutcome → JSVal
  | .failed err => .obj [("ok", .bool false), ("msg", .str err.message)]
  | .json body => body

/-- Everything a run of `scanOnce` reads from outside. -/
structure ScanEnv where
  /-- Result of `snapBase64()`: the data URL, or the exception it throws. -/
  snapBase64 : Except JSError String
  /-- Value of the field `type`. -/
  typeValue : String
  /-- Value of the element with id `threshold`, when the page has one. -/
  thresholdEl : Option String
  /-- Value of the element with id `th`, when the page has one. -/
  thEl : Option String
  /-- Outcome of the position request. -/
  geo : GeoOutcome
  /-- Reply of the server to a recognize request with the given body. -/
  fetchRecognize : String → FetchOutcome
  /-- The TypeError the engine raises on a property read of `null`. -/
  typeError : JSError
  /-- The engine's Number::toString. -/
  numberToString : JSNum → String
  /-- The TypeError the engine raises when an object has no primitive value. -/
  convertError : JSError

/-- What a run of `scanOnce` did. -/
structure ScanOutcome where
  /-- The texts assigned to `scanMsg.innerText`, in order. -/
  writes : List String
  /-- The payload object of the recognize request, when one was sent. -/
  request : Option JSVal
  /-- What the request settled to, when one was sent. -/
  received : Option FetchOutcome
  /-- The body of the recognize request, when one was sent. -/
  body : Option String

/-- Lines 68-69: the threshold, `undefined` when the page has no threshold
field, else `parseFloat(thEl.value || '0.58')`. -/
def thresholdOf (env : ScanEnv) : JSVal :=
  match env.thresholdEl <|> env.thEl with
  | some v => .num (parseFloat (if v = "" then "0.58" else v))
  | none => .undefined

/-- Lines 76-77: the members of the payload object. -/
def buildPayload (img type : String) (loc : LocationFix) (threshold : JSVal) :
    List (String × JSVal) :=
  let base : List (String × JSVal) :=
    [("image", .str img), ("type", .str type), ("lat", .num loc.lat),
     ("lng", .num loc.lng), ("accuracy", .num loc.accuracy)]
  match threshold with
  | .undefined => base
  | t => base ++ [("threshold", t)]

/-- Line 94: the text written by the `catch` block. -/
def catchText (e : JSError) : String :=
  "❌ " ++ (if e.message = "" then "เกิดข้อผิดพลาด" else e.message)

/-- Line 84: the text for a reply whose `ok` is falsy; `none` when converting
`res.msg` throws. -/
def failureText (fmt : JSNum → String) (res : JSVal) : Option String :=
  match toStr fmt (jsOr (getProp res "msg") (.str "สแกนล้มเหลว")) with
  | some t => some ("❌ " ++ t)
  | none => none

/-- Line 88: the distance shown, `gf.distance_m ?? 0`, converted. -/
def distanceShown (fmt : JSNum → String) (gf : JSVal) : Option String :=
  if nullish (getProp gf "distance_m") then some "0" else toStr fmt (getProp gf "distance_m")

/-- Line 88: the text for a reply that passes both signals; `none` when a
conversion throws. -/
def successText (fmt : JSNum → String) (res gf : JSVal) : Option String :=
  match toStr fmt (getProp res "name"), toStr fmt (getProp res "score"),
      distanceShown fmt gf with
  | some name, some score, some d =>
    some ("✅ " ++ name ++ " | score=" ++ score ++ " | ในรัศมี ~" ++ d ++ " m")
  | _, _, _ => none

/-- Line 90: the distance suffix of a denial; `none` when the conversion
throws. -/
def distanceSuffix (fmt : JSNum → String) (gf : JSVal) : Option String :=
  if nullish (getProp gf "distance_m") then some ""
  else
    match toStr fmt (getProp gf "distance_m") with
    | some t => some (" (ห่าง ~" ++ t ++ " m)")
    | none => none

/-- Line 91: the identity shown in a denial, `res.matched ? res.name :
'Unknown'`, converted. -/
def identityShown (fmt : JSNum → String) (res : JSVal) : Option String :=
  if truthy (getProp res "matched") then toStr fmt (getProp res "name") else some "Unknown"

/-- Lines 90-91: the text for a reply that fails at least one signal; `none`
when a conversion throws. -/
def denialText (fmt : JSNum → String) (res gf : JSVal) : Option String :=
  match distanceSuffix fmt gf, identityShown fmt res, toStr fmt (getProp res "score"),
      toStr fmt (humanReason (getProp gf "reason")) with
  | some dist, some ident, some score, some reason =>
    some ("❌ " ++ ident ++ " | score=" ++ score ++ " | " ++ reason ++ dist)
  | _, _, _, _ => none

/-- Lines 93-95 for a statement that builds a text: the text, or the text of
the `catch` block when building it threw the conversion error. -/
def orCatch (convertError : JSError) : Option String → String
  | some t => t
  | none => catchText convertError

/-- Lines 84-92: rendering of the value bound to `res`.  A `null` reply makes
`res.ok` throw and a failed conversion makes the template throw; both land in
the `catch` block. -/
def render (fmt : JSNum → String) (typeError convertError : JSError) (res : JSVal) : String :=
  if nullish res then catchText typeError
  else if !truthy (getProp res "ok") then orCatch convertError (failureText fmt res)
  else
    let gf := jsOr (getProp res "geofence") (.obj [])
    if truthy (getProp res "matched") && truthy (getProp gf "within") then
      orCatch convertError (successText fmt res gf)
    else orCatch convertError (denialText fmt res gf)

/-- One run of `scanOnce`. -/
def scanOnce (env : ScanEnv) : ScanOutcome :=
  let busy := "กำลังสแกน..."
  match env.snapBase64 with
  | .error e => ⟨[busy, catchText e], none, none, none⟩
  | .ok img =>
    let threshold := thresholdOf env
    match getLocationOnce env.geo with
    | .error e => ⟨[busy, catchText e], none, none, none⟩
    | .ok loc =>
      let payload := buildPayload img env.typeValue loc threshold
      let body := jsonStringify env.numberToString payload
      let reply := env.fetchRecognize body
      ⟨[busy, render env.numberToString env.typeError env.convertError (settle reply)],
        some (.obj payload), some reply, some body⟩

/-! ## `doEnroll` (lines 24-36) -/

/-- Everything a run of `doEnroll` reads from outside. -/
structure EnrollEnv where
  /-- Value of the field `code`. -/
  codeValue : String
  /-- Value of the field `frames`. -/
  framesValue : String
  /-- Result of the `k`-th call of `snapBase64()` (counted from 0): the data
  URL, or the exception it throws. -/
  snapBase64 : Nat → Except JSError String
  /-- Reply of the server to an enroll request with the given body. -/
  fetchEnroll : String → FetchOutcome
  /-- The TypeError the engine raises on a property read of `null`. -/
  typeError : JSError
  /-- The engine's Number::toString. -/
  numberToString : JSNum → String
  /-- The TypeError the engine raises when an object has no primitive value. -/
  convertError : JSError
  /-- The RangeError the engine raises when an array length would reach
  `2^32`. -/
  rangeError : JSError

/-- What a run of `doEnroll` did. -/
structure EnrollOutcome where
  /-- The texts assigned to `enrollMsg.innerText`, in order. -/
  writes : List String
  /-- Number of calls of `snapBase64()`. -/
  snapshots : Nat
  /-- The payload of the enroll request, when one was sent. -/
  request : Option JSVal
  /-- The exception the run ended with, when it threw. -/
  threw : Option JSError

/-- Line 26: `parseInt(frames.value, 10) || 6`. -/
def frameCount (framesValue : String) : Count :=
  if (parseInt framesValue).truthy then parseInt framesValue else .int false 6

/-- Line 30: the capture loop from counter `i` with the frames pushed so far.
Each turn of the loop consumes one unit of fuel; `none` means the fuel ran out
before the loop ended.  The result is the array of frames with the exception
that ended the loop, if any: the one `snapBase64()` threw, or the RangeError of
the `push` that would make the length of the array `2^32`. -/
def captureLoop (snap : Nat → Except JSError String) (rangeError : JSError) (n : Count) :
    Nat → Nat → List String → Option (List String × Option JSError)
  | fuel, i, frames =>
    if n.exceeds i then
      match fuel with
      | 0 => none
      | fuel + 1 =>
        match snap frames.length with
        | .error e => some (frames, some e)
        | .ok img =>
          if frames.length + 1 < 2 ^ 32 then
            captureLoop snap rangeError n fuel (i + 1) (frames ++ [img])
          else some (frames, some rangeError)
    else some (frames, none)

/-- Line 35: the text written once the request has settled; `none` when
converting `res.msg` throws. -/
def enrollText (fmt : JSNum → String) (res : JSVal) : Option String :=
  if truthy (getProp res "ok") then
    match toStr fmt (getProp res "msg") with
    | some t => some ("✅ " ++ t)
    | none => none
  else
    match toStr fmt (jsOr (getProp res "msg") (.str "enroll ล้มเหลว")) with
    | some t => some ("❌ " ++ t)
    | none => none

/-- One run of `doEnroll` with the given fuel for the capture loop.  The
function has no `catch`: a thrown exception ends the run. -/
def doEnroll (fuel : Nat) (env : EnrollEnv) : Option EnrollOutcome :=
  let code := trim env.codeValue
  let n := frameCount env.framesValue
  if code = "" then some ⟨["กรอกรหัสก่อน"], 0, none, none⟩
  else
    let busy := "กำลังถ่าย " ++ env.numberToString n.toNumber ++ " เฟรม..."
    match captureLoop env.snapBase64 env.rangeError n fuel 0 [] with
    | none => none
    | some (frames, some e) => some ⟨[busy], frames.length + 1, none, some e⟩
    | some (frames, none) =>
      let payload : List (String × JSVal) :=
        [("code", .str code), ("images", .arr (frames.map .str))]
      let res := settle (env.fetchEnroll (jsonStringify env.numberToString payload))
      if nullish res then some ⟨[busy], frames.length, some (.obj payload), some env.typeError⟩
      else
        match enrollText env.numberToString res with
        | some t => some ⟨[busy, t], frames.length, some (.obj payload), none⟩
        | none => some ⟨[busy], frames.length, some (.obj payload), some env.convertError⟩

set_option exponentiation.threshold 2000

/-! ## Specification-side predicates -/

/-- Specification side: the fusion of the two signals of a reply, read with
JavaScript truthiness: `ok`, `matched` and `geofence.within` all hold. -/
def admits (v : JSVal) : Bool :=
  truthy (getProp v "ok") && truthy (getProp v "matched") &&
    truthy (getProp (getProp v "geofence") "within")

/-- Specification side: a threshold the engine accepts, a Number strictly
inside the open interval (0,1).  The binary64 value nearest to `m·10^e` is
below 1 exactly when `m·10^e < 1 - 2^-54`. -/
def insideOpenUnit : JSNum → Bool
  | .nan => false
  | .inf _ => false
  | .dec neg m e =>
    !neg && !roundsToZero m e &&
      (decide (e < 0) && decide (m * 2 ^ 54 < (2 ^ 54 - 1) * 10 ^ (-e).toNat))

/-- Specification side: the reason code of a denied verdict as the engine
contract words it, the geofence reason if the geofence failed, else
`face_not_matched`. -/
def specReason (res : JSVal) : JSVal :=
  let gf := jsOr (getProp res "geofence") (.obj [])
  if truthy (getProp gf "within") then .str "face_not_matched" else getProp gf "reason"

/-- Specification side: the denial text with the label of `specReason` in the
place of the reason. -/
def specDenialText (fmt : JSNum → String) (res : JSVal) : Option String :=
  let gf := jsOr (getProp res "geofence") (.obj [])
  match distanceSuffix fmt gf, identityShown fmt res, toStr fmt (getProp res "score"),
      toStr fmt (humanReason (specReason res)) with
  | some dist, some ident, some score, some reason =>
    some ("❌ " ++ ident ++ " | score=" ++ score ++ " | " ++ reason ++ dist)
  | _, _, _, _ => none

/-- Specification side: the text of a call-level failure as the claim words it,
the cross followed by `res.msg`, or by the default text when `msg` is missing
(`undefined` or `null`) or the empty string. -/
def specFailureText (fmt : JSNum → String) (res : JSVal) : Option String :=
  match getProp res "msg" with
  | .undefined => some "❌ สแกนล้มเหลว"
  | .null => some "❌ สแกนล้มเหลว"
  | .str s => some ("❌ " ++ (if s = "" then "สแกนล้มเหลว" else s))
  | m =>
    match toStr fmt m with
    | some t => some ("❌ " ++ t)
    | none => none

/-- Specification side: the request body as the claim words it, each Number
standing in it as it is, the threshold being `parseFloat` of the value of the
threshold field, or of `0.58` when that is empty. -/
def specRecognizeBody (fmt : JSNum → String) (img type : String) (loc : LocationFix)
    (field : Option String) : String :=
  "\x7b\"image\":" ++ jsonQuote img ++ ",\"type\":" ++ jsonQuote type ++
    ",\"lat\":" ++ fmt loc.lat ++ ",\"lng\":" ++ fmt loc.lng ++
    ",\"accuracy\":" ++ fmt loc.accuracy ++
    (match field with
      | some v => ",\"threshold\":" ++ fmt (parseFloat (if v = "" then "0.58" else v))
      | none => "") ++ "\x7d"

/-- Specification side: `max(n, 0)` as the number of turns of the capture loop;
`none` stands for no bound (`Infinity`).  A count that is `NaN` compares false
with every counter. -/
def Count.turns : Count → Option Nat
  | .nan => some 0
  | .inf neg => if neg then some 0 else none
  | .int neg k => if neg then some 0 else some k

/-! ## Sample runs -/

/-- Drops trailing decimal zeros of a mantissa, adjusting the exponent. -/
def stripZeros : Nat → Nat → Int → Nat × Int
  | 0, m, e => (m, e)
  | fuel + 1, m, e =>
    if m ≠ 0 ∧ m % 10 = 0 then stripZeros fuel (m / 10) (e + 1) else (m, e)

/-- The string of `count` zeros. -/
def zeros (count : Nat) : String := String.mk (List.replicate count '0')

/-- The notation of Number::toString for a positive decimal `m·10^e` whose
mantissa has no trailing zero: with `k` digits and `n = k + e`, plain notation
for `-6 < n ≤ 21`, exponent notation otherwise. -/
def positiveToString (m : Nat) (e : Int) : String :=
  let digits := (Nat.repr m).data
  let k : Int := digits.length
  let n : Int := k + e
  if k ≤ n ∧ n ≤ 21 then String.mk digits ++ zeros (n - k).toNat
  else if 0 < n ∧ n ≤ 21 then
    String.mk (digits.take n.toNat) ++ "." ++ String.mk (digits.drop n.toNat)
  else if -6 < n ∧ n ≤ 0 then "0." ++ zeros (-n).toNat ++ String.mk digits
  else
    let ex := n - 1
    let exps := (if ex < 0 then "-" else "+") ++ Nat.repr ex.natAbs
    if digits.length = 1 then String.mk digits ++ "e" ++ exps
    else String.mk (digits.take 1) ++ "." ++ String.mk (digits.drop 1) ++ "e" ++ exps

/-- The formatter of the sample runs: it prints the digits of the decimal
itself.  That is what Number::toString prints for the Numbers of the sample
runs, which are short decimals; it is not Number::toString in general, which
prints the shortest digits that read back as the same binary64 value. -/
def printDecimal : JSNum → String
  | .nan => "NaN"
  | .inf neg => if neg then "-Infinity" else "Infinity"
  | .dec neg m e =>
    if roundsToZero m e then "0"
    else if roundsToInf m e then (if neg then "-Infinity" else "Infinity")
    else
      let c := stripZeros m m e
      (if neg then "-" else "") ++ positiveToString c.1 c.2

/-- A position reading: 13.7563 N, 100.5018 E, accuracy 12 m. -/
def sampleFix : GeoOutcome :=
  .position (.dec false 137563 (-4)) (.dec false 1005018 (-4)) (.dec false 12 0)

/-- A reply for a face that matched no enrolled identity, scanned 5 m from the
centre of an authorized site: the best candidate is below the threshold. -/
def unmatchedInsideReply : JSVal :=
  .obj [("ok", .bool true), ("matched", .bool false), ("name", .str "E001"),
    ("score", .num (.dec false 3 (-1))),
    ("geofence", .obj [("within", .bool true), ("distance_m", .num (.dec false 5 0)),
      ("reason", .str "ok")])]

/-- A reply for a matched face scanned 500 m from the nearest site. -/
def matchedOutsideReply : JSVal :=
  .obj [("ok", .bool true), ("matched", .bool true), ("name", .str "E001"),
    ("score", .num (.dec false 97 (-2))),
    ("geofence", .obj [("within", .bool false), ("distance_m", .num (.dec false 500 0)),
      ("reason", .str "outside_radius")])]

/-- A reply for a matched face scanned 5 m from the centre of a site. -/
def matchedInsideReply : JSVal :=
  .obj [("ok", .bool true), ("matched", .bool true), ("name", .str "E001"),
    ("score", .num (.dec false 97 (-2))),
    ("geofence", .obj [("within", .bool true), ("distance_m", .num (.dec false 5 0)),
      ("reason", .str "ok")])]

/-- A reply that passes both signals and whose `name` is the object
`{"toString": null}`. -/
def unprintableNameReply : JSVal :=
  .obj [("ok", .bool true), ("matched", .bool true), ("name", .obj [("toString", .null)]),
    ("score", .num (.dec false 9 (-1))),
    ("geofence", .obj [("within", .bool true), ("distance_m", .num (.dec false 3 0)),
      ("reason", .str "ok")])]

/-- A page without threshold field whose scan is answered by `reply`. -/
def scanEnvWith (reply : FetchOutcome) : ScanEnv :=
  { snapBase64 := .ok "data:image/jpeg;base64,AAAA"
    typeValue := "in"
    thresholdEl := none
    thEl := none
    geo := sampleFix
    fetchRecognize := fun _ => reply
    typeError := ⟨"Cannot read properties of null"⟩
    numberToString := printDecimal
    convertError := ⟨"Cannot convert object to primitive value"⟩ }

/-- A page whose threshold field (id `th`) holds `value`. -/
def scanEnvThreshold (value : String) : ScanEnv :=
  { scanEnvWith (.json matchedOutsideReply) with thEl := some value }

/-- A page on which the position request fails with `err`. -/
def scanEnvNoFix (err : JSError) : ScanEnv :=
  { scanEnvWith (.json matchedOutsideReply) with geo := .failed err }

/-- A page with an empty threshold field (id `th`) and a coarse fix: accuracy
120 m. -/
def scanEnvCoarseFix : ScanEnv :=
  { scanEnvThreshold "" with
    geo := .position (.dec false 137563 (-4)) (.dec false 1005018 (-4)) (.dec false 120 0) }

/-- An enrolment page with the given field values, a working camera and a
server that accepts the request. -/
def enrollEnvWith (code frames : String) : EnrollEnv :=
  { codeValue := code
    framesValue := frames
    snapBase64 := fun _ => .ok "data:image/jpeg;base64,AAAA"
    fetchEnroll := fun _ => .json (.obj [("ok", .bool true), ("msg", .str "enrolled")])
    typeError := ⟨"Cannot read properties of null"⟩
    numberToString := printDecimal
    convertError := ⟨"Cannot convert object to primitive value"⟩
    rangeError := ⟨"Invalid array length"⟩ }

/-! ## Lemmas on texts -/

theorem startsWith_append (p a b : String) (h : startsWith p a = true) :
    startsWith p (a ++ b) = true := by
  unfold startsWith at *
  rw [String.data_append]
  generalize p.data = ps at h ⊢
  generalize a.data = as at h ⊢
  induction ps generalizing as with
  | nil => simp [beginsWith]
  | cons c cs ih =>
    cases as with
    | nil => simp [beginsWith] at h
    | cons d ds =>
      simp only [beginsWith, Bool.and_eq_true, List.cons_append] at h ⊢
      exact ⟨h.1, ih ds h.2⟩

theorem beginsWith_singleton (c : Char) (cs : List Char) :
    beginsWith [c] cs = (cs.head? == some c) := by
  cases cs with
  | nil => rfl
  | cons d ds =>
    simp only [beginsWith, List.head?_cons, Bool.and_true]
    by_cases h : c = d
    · subst h; simp
    · have h2 : d ≠ c := fun e => h e.symm
      simp [h, h2]

theorem startsWith_cross (a : String) (h : startsWith "❌" a = true) :
    startsWith "✅" a = false := by
  unfold startsWith at *
  rw [show "✅".data = ['✅'] from rfl, beginsWith_singleton]
  rw [show "❌".data = ['❌'] from rfl, beginsWith_singleton] at h
  cases hh : a.data.head? with
  | none => rfl
  | some d =>
    rw [hh] at h
    have hd : d = '❌' := by simpa using h
    subst hd
    decide

theorem startsWith_tick (a : String) (h : startsWith "✅" a = true) :
    startsWith "❌" a = false := by
  cases hx : startsWith "❌" a with
  | false => rfl
  | true => rw [startsWith_cross a hx] at h; exact absurd h (by decide)

theorem catchText_cross (e : JSError) : startsWith "❌" (catchText e) = true :=
  startsWith_append _ _ _ (by decide)

theorem failureText_cross (fmt : JSNum → String) (ce : JSError) (res : JSVal) :
    startsWith "❌" (orCatch ce (failureText fmt res)) = true := by
  unfold failureText
  cases toStr fmt (jsOr (getProp res "msg") (.str "สแกนล้มเหลว")) with
  | none => exact catchText_cross ce
  | some t => exact startsWith_append _ _ _ (by decide)

theorem successText_tick (fmt : JSNum → String) (res gf : JSVal) (t : String)
    (h : successText fmt res gf = some t) : startsWith "✅" t = true := by
  unfold successText at h
  split at h
  · simp only [Option.some.injEq] at h
    subst h
    repeat first
      | exact (by decide : startsWith "✅" "✅ " = true)
      | apply startsWith_append
  · cases h

theorem denialText_cross (fmt : JSNum → String) (ce : JSError) (res gf : JSVal) :
    startsWith "❌" (orCatch ce (denialText fmt res gf)) = true := by
  unfold denialText
  split
  · simp only [orCatch]
    repeat first
      | exact (by decide : startsWith "❌" "❌ " = true)
      | apply startsWith_append
  · exact catchText_cross ce

theorem getProp_of_falsy (g : JSVal) (key : String) (h : truthy g = false) :
    getProp g key = .undefined := by
  cases g <;> first | rfl | simp [truthy] at h

theorem getProp_jsOr_empty (g : JSVal) (key : String) :
    getProp (jsOr g (.obj [])) key = getProp g key := by
  unfold jsOr
  cases h : truthy g with
  | true => simp
  | false =>
    rw [getProp_of_falsy g key h]
    rfl

theorem toStr_isSome_of_nullish (fmt : JSNum → String) (d : JSVal) (h : nullish d = true) :
    (toStr fmt d).isSome = true := by
  cases d <;> first | rfl | simp [nullish] at h

theorem successText_isSome (fmt : JSNum → String) (res gf : JSVal) :
    (successText fmt res gf).isSome =
      ((toStr fmt (getProp res "name")).isSome && (toStr fmt (getProp res "score")).isSome &&
        (toStr fmt (getProp gf "distance_m")).isSome) := by
  have hd : (distanceShown fmt gf).isSome = (toStr fmt (getProp gf "distance_m")).isSome := by
    unfold distanceShown
    by_cases hn : nullish (getProp gf "distance_m") = true
    · simp [hn, toStr_isSome_of_nullish fmt _ hn]
    · simp [hn]
  rw [← hd]
  unfold successText
  cases toStr fmt (getProp res "name") <;> cases toStr fmt (getProp res "score") <;>
    cases distanceShown fmt gf <;> rfl

/-- The rendering of a reply starts with the tick exactly when the reply admits
and the three printed fields convert. -/
theorem render_tick_iff (fmt : JSNum → String) (te ce : JSError) (res : JSVal) :
    startsWith "✅" (render fmt te ce res) =
      (admits res &&
        (successText fmt res (jsOr (getProp res "geofence") (.obj []))).isSome) := by
  unfold render admits
  by_cases hn : nullish res = true
  · have : getProp res "ok" = .undefined := by
      cases res <;> simp [nullish] at hn <;> rfl
    simp [hn, this, truthy, startsWith_cross _ (catchText_cross te)]
  · by_cases hok : truthy (getProp res "ok") = true
    · by_cases hm : truthy (getProp res "matched") = true
      · by_cases hw : truthy (getProp (getProp res "geofence") "within") = true
        · simp only [hn, hok, hm, hw, getProp_jsOr_empty, Bool.not_true, Bool.and_self,
            if_true, Bool.true_and]
          simp only [Bool.false_eq_true, if_false]
          cases hs : successText fmt res (jsOr (getProp res "geofence") (.obj [])) with
          | none => simp [orCatch, startsWith_cross _ (catchText_cross ce)]
          | some t => simp [orCatch, successText_tick fmt _ _ t hs]
        · simp [hn, hok, hm, hw, getProp_jsOr_empty,
            startsWith_cross _ (denialText_cross fmt ce _ _)]
      · simp [hn, hok, hm, startsWith_cross _ (denialText_cross fmt ce _ _)]
    · simp [hn, hok, startsWith_cross _ (failureText_cross fmt ce _)]

theorem render_cross_iff (fmt : JSNum → String) (te ce : JSError) (res : JSVal) :
    startsWith "❌" (render fmt te ce res) =
      !(admits res &&
        (successText fmt res (jsOr (getProp res "geofence") (.obj []))).isSome) := by
  cases h : (admits res &&
      (successText fmt res (jsOr (getProp res "geofence") (.obj []))).isSome) with
  | true =>
    have := render_tick_iff fmt te ce res
    rw [h] at this
    simpa using startsWith_tick _ this
  | false =>
    simp only [Bool.not_false]
    cases hx : startsWith "❌" (render fmt te ce res) with
    | true => rfl
    | false =>
      exfalso
      unfold render at hx
      split at hx
      · rw [catchText_cross] at hx; cases hx
      · split at hx
        · rw [failureText_cross] at hx; cases hx
        · rename_i hn hok
          simp only at hx
          split at hx
          · rename_i hmw
            rw [getProp_jsOr_empty] at hmw
            simp only [Bool.and_eq_true] at hmw
            have hok2 : truthy (getProp res "ok") = true := by
              cases hk : truthy (getProp res "ok") with
              | true => rfl
              | false => simp [hk] at hok
            have hadm : admits res = true := by
              simp [admits, hok2, hmw.1, hmw.2]
            rw [hadm, Bool.true_and] at h
            cases hs : successText fmt res (jsOr (getProp res "geofence") (.obj [])) with
            | none =>
              rw [hs] at hx
              simp only [orCatch] at hx
              rw [catchText_cross] at hx; cases hx
            | some t => rw [hs] at h; simp at h
          · rw [denialText_cross] at hx; cases hx

theorem scanOnce_shape (env : ScanEnv) :
    (∃ e, scanOnce env = ⟨["กำลังสแกน...", catchText e], none, none, none⟩ ∧
        (env.snapBase64 = .error e ∨ getLocationOnce env.geo = .error e)) ∨
    (∃ img loc, env.snapBase64 = .ok img ∧ getLocationOnce env.geo = .ok loc ∧
        scanOnce env =
          ⟨["กำลังสแกน...", render env.numberToString env.typeError env.convertError
              (settle (env.fetchRecognize (jsonStringify env.numberToString
                (buildPayload img env.typeValue loc (thresholdOf env)))))],
            some (.obj (buildPayload img env.typeValue loc (thresholdOf env))),
            some (env.fetchRecognize (jsonStringify env.numberToString
                (buildPayload img env.typeValue loc (thresholdOf env)))),
            some (jsonStringify env.numberToString
                (buildPayload img env.typeValue loc (thresholdOf env)))⟩) := by
  unfold scanOnce
  cases hs : env.snapBase64 with
  | error e => exact Or.inl ⟨e, rfl, Or.inl rfl⟩
  | ok img =>
    cases hg : getLocationOnce env.geo with
    | error e => exact Or.inl ⟨e, rfl, Or.inr rfl⟩
    | ok loc => exact Or.inr ⟨img, loc, rfl, rfl, rfl⟩

theorem scanOnce_writes_of_received (env : ScanEnv) (reply : FetchOutcome)
    (hr : (scanOnce env).received = some reply) :
    (scanOnce env).writes =
      ["กำลังสแกน...",
        render env.numberToString env.typeError env.convertError (settle reply)] := by
  rcases scanOnce_shape env with ⟨e, h, _⟩ | ⟨img, loc, _, _, h⟩
  · rw [h] at hr; simp at hr
  · rw [h] at hr ⊢
    simp only [Option.some.injEq] at hr
    rw [hr]

theorem admits_printable_eq (fmt : JSNum → String) (v : JSVal) :
    (admits v && (successText fmt v (jsOr (getProp v "geofence") (.obj []))).isSome) =
      (truthy (getProp v "ok") && (truthy (getProp v "matched") &&
        truthy (getProp (getProp v "geofence") "within") &&
        ((toStr fmt (getProp v "name")).isSome && (toStr fmt (getProp v "score")).isSome &&
          (toStr fmt (getProp (getProp v "geofence") "distance_m")).isSome))) := by
  rw [successText_isSome, getProp_jsOr_empty]
  unfold admits
  simp only [Bool.and_assoc]

/-- C1 (as the script behaves): a text starting with the tick is written to
`scanMsg` exactly when a reply was received whose `ok`, `matched` and
`geofence.within` are truthy and whose `name`, `score` and
`geofence.distance_m` convert to strings.  For a reply with truthy `ok` the
single text written after the busy text starts with the tick or with the cross
according to that conjunction; a reply whose `geofence` is missing or `null` is
rendered with the cross; every value that is neither an array nor an object
converts. -/
theorem scanOnce_success_iff_admits_printable (env : ScanEnv) :
    ((∃ w ∈ (scanOnce env).writes, startsWith "✅" w = true) ↔
      ∃ v, (scanOnce env).received = some (.json v) ∧
        truthy (getProp v "ok") = true ∧ truthy (getProp v "matched") = true ∧
        truthy (getProp (getProp v "geofence") "within") = true ∧
        (toStr env.numberToString (getProp v "name")).isSome = true ∧
        (toStr env.numberToString (getProp v "score")).isSome = true ∧
        (toStr env.numberToString
          (getProp (getProp v "geofence") "distance_m")).isSome = true) ∧
    (∀ v, (scanOnce env).received = some (.json v) → truthy (getProp v "ok") = true →
      ∃ w, (scanOnce env).writes = ["กำลังสแกน...", w] ∧
        startsWith "✅" w =
          (truthy (getProp v "matched") && truthy (getProp (getProp v "geofence") "within") &&
            ((toStr env.numberToString (getProp v "name")).isSome &&
              (toStr env.numberToString (getProp v "score")).isSome &&
              (toStr env.numberToString
                (getProp (getProp v "geofence") "distance_m")).isSome)) ∧
        startsWith "❌" w =
          !(truthy (getProp v "matched") && truthy (getProp (getProp v "geofence") "within") &&
            ((toStr env.numberToString (getProp v "name")).isSome &&
              (toStr env.numberToString (getProp v "score")).isSome &&
              (toStr env.numberToString
                (getProp (getProp v "geofence") "distance_m")).isSome))) ∧
    (∀ v, (scanOnce env).received = some (.json v) → truthy (getProp v "ok") = true →
      nullish (getProp v "geofence") = true →
      ∃ w, (scanOnce env).writes = ["กำลังสแกน...", w] ∧ startsWith "❌" w = true) ∧
    (∀ x : JSVal, (∀ items, x ≠ .arr items) → (∀ fields, x ≠ .obj fields) →
      (toStr env.numberToString x).isSome = true) := by
  have busy : startsWith "✅" "กำลังสแกน..." = false := by decide
  have part2 : ∀ v, (scanOnce env).received = some (.json v) →
      truthy (getProp v "ok") = true →
      ∃ w, (scanOnce env).writes = ["กำลังสแกน...", w] ∧
        startsWith "✅" w =
          (truthy (getProp v "matched") && truthy (getProp (getProp v "geofence") "within") &&
            ((toStr env.numberToString (getProp v "name")).isSome &&
              (toStr env.numberToString (getProp v "score")).isSome &&
              (toStr env.numberToString
                (getProp (getProp v "geofence") "distance_m")).isSome)) ∧
        startsWith "❌" w =
          !(truthy (getProp v "matched") && truthy (getProp (getProp v "geofence") "within") &&
            ((toStr env.numberToString (getProp v "name")).isSome &&
              (toStr env.numberToString (getProp v "score")).isSome &&
              (toStr env.numberToString
                (getProp (getProp v "geofence") "distance_m")).isSome)) := by
    intro v hv hok
    refine ⟨_, scanOnce_writes_of_received env _ hv, ?_, ?_⟩
    · rw [render_tick_iff, settle, admits_printable_eq, hok, Bool.true_and]
    · rw [render_cross_iff, settle, admits_printable_eq, hok, Bool.true_and]
  refine ⟨⟨?_, ?_⟩, part2, ?_, ?_⟩
  · rintro ⟨w, hw, ht⟩
    rcases scanOnce_shape env with ⟨e, h, _⟩ | ⟨img, loc, _, _, h⟩
    · rw [h] at hw
      simp only [List.mem_cons, List.mem_singleton, List.mem_nil_iff, or_false] at hw
      rcases hw with rfl | rfl
      · rw [busy] at ht; exact absurd ht (by decide)
      · rw [startsWith_cross _ (catchText_cross e)] at ht; exact absurd ht (by decide)
    · have hrec : (scanOnce env).received = some (env.fetchRecognize
          (jsonStringify env.numberToString
            (buildPayload img env.typeValue loc (thresholdOf env)))) := by rw [h]
      rw [scanOnce_writes_of_received env _ hrec] at hw
      simp only [List.mem_cons, List.mem_singleton, List.mem_nil_iff, or_false] at hw
      rcases hw with rfl | rfl
      · rw [busy] at ht; exact absurd ht (by decide)
      · rw [render_tick_iff, admits_printable_eq] at ht
        generalize env.fetchRecognize (jsonStringify env.numberToString
            (buildPayload img env.typeValue loc (thresholdOf env))) = reply at hrec ht
        cases reply with
        | failed err => simp [settle, getProp, lookupField, truthy] at ht
        | json v =>
          refine ⟨v, hrec, ?_⟩
          simpa [settle, Bool.and_eq_true, and_assoc] using ht
  · rintro ⟨v, hv, hok, hm, hw, h1, h2, h3⟩
    obtain ⟨w, hwr, htick, _⟩ := part2 v hv hok
    refine ⟨w, by rw [hwr]; simp, ?_⟩
    rw [htick, hm, hw, h1, h2, h3]
    rfl
  · intro v hv hok hnull
    obtain ⟨w, hwr, _, hcross⟩ := part2 v hv hok
    refine ⟨w, hwr, ?_⟩
    rw [hcross]
    have : getProp (getProp v "geofence") "within" = .undefined := by
      cases hg : getProp v "geofence" <;> simp [hg, nullish] at hnull <;> rfl
    simp [this, truthy]
  · intro x ha ho
    cases x with
    | arr items => exact absurd rfl (ha items)
    | obj fields => exact absurd rfl (ho fields)
    | _ => rfl

/-- C1, witness: a matched face 5 m from the centre of a site gets the tick. -/
theorem scanOnce_success_iff_admits_printable_witness :
    (scanOnce (scanEnvWith (.json matchedInsideReply))).writes =
      ["กำลังสแกน...", "✅ E001 | score=0.97 | ในรัศมี ~5 m"] ∧
    (scanOnce (scanEnvWith (.json (.obj [("ok", .bool true), ("matched", .bool true),
      ("name", .str "E001"), ("score", .num (.dec false 97 (-2))),
      ("geofence", .obj [("within", .bool true)])])))).writes =
      ["กำลังสแกน...", "✅ E001 | score=0.97 | ในรัศมี ~0 m"] ∧
    ∃ w ∈ (scanOnce (scanEnvWith (.json matchedInsideReply))).writes, startsWith "✅" w = true :=
  ⟨by decide, by decide,
    (scanOnce_success_iff_admits_printable (scanEnvWith (.json matchedInsideReply))).1.2
      ⟨matchedInsideReply, rfl, rfl, rfl, rfl, rfl, rfl, rfl⟩⟩

/-- C1, counterexample: a reply whose `ok`, `matched` and `geofence.within` are
all true and whose `name` is the object `{"toString": null}` makes the template
of line 88 throw; the `catch` block writes the cross and no text starts with
the tick. -/
theorem scanOnce_admitted_reply_not_printed :
    (scanOnce (scanEnvWith (.json unprintableNameReply))).received =
      some (.json unprintableNameReply) ∧
    truthy (getProp unprintableNameReply "ok") = true ∧
    truthy (getProp unprintableNameReply "matched") = true ∧
    truthy (getProp (getProp unprintableNameReply "geofence") "within") = true ∧
    (scanOnce (scanEnvWith (.json unprintableNameReply))).writes =
      ["กำลังสแกน...", "❌ Cannot convert object to primitive value"] ∧
    ¬ ∃ w ∈ (scanOnce (scanEnvWith (.json unprintableNameReply))).writes,
        startsWith "✅" w = true := by
  refine ⟨rfl, rfl, rfl, rfl, by decide, ?_⟩
  decide

/-- C4: each of the five transmitted reason codes has a dedicated label,
different from the code and from the fallback label, and the five labels are
pairwise distinct. -/
theorem humanReason_covers_enum :
    humanReason (.str "ok") = .str "อยู่ในรัศมี" ∧
    humanReason (.str "gps_accuracy_poor") = .str "ความแม่นยำ GPS ต่ำ" ∧
    humanReason (.str "no_sites_configured") = .str "ยังไม่ได้ตั้งจุดอนุญาต" ∧
    humanReason (.str "outside_radius") = .str "อยู่นอกรัศมี" ∧
    humanReason (.str "face_not_matched") = .str "จำหน้าไม่สำเร็จ" ∧
    (∀ fmt, ∀ c ∈ reasonCodes, toStr fmt (humanReason (.str c)) ≠ some c ∧
      toStr fmt (humanReason (.str c)) ≠ some "ไม่ทราบสาเหตุ" ∧
      toStr fmt (humanReason (.str c)) ≠ none ∧
      toStr fmt (humanReason (.str c)) ≠ toStr fmt (humanReason .undefined)) ∧
    (∀ fmt, ∀ a ∈ reasonCodes, ∀ b ∈ reasonCodes,
      toStr fmt (humanReason (.str a)) = toStr fmt (humanReason (.str b)) → a = b) := by
  have label : ∀ (fmt : JSNum → String) (s : String), toStr fmt (.str s) = some s :=
    fun _ _ => rfl
  have e1 : humanReason (.str "ok") = .str "อยู่ในรัศมี" := rfl
  have e2 : humanReason (.str "gps_accuracy_poor") = .str "ความแม่นยำ GPS ต่ำ" := rfl
  have e3 : humanReason (.str "no_sites_configured") = .str "ยังไม่ได้ตั้งจุดอนุญาต" := rfl
  have e4 : humanReason (.str "outside_radius") = .str "อยู่นอกรัศมี" := rfl
  have e5 : humanReason (.str "face_not_matched") = .str "จำหน้าไม่สำเร็จ" := rfl
  have e0 : humanReason .undefined = .str "ไม่ทราบสาเหตุ" := rfl
  refine ⟨e1, e2, e3, e4, e5, ?_, ?_⟩
  · intro fmt c hc
    simp only [reasonCodes, List.mem_cons, List.mem_singleton, List.mem_nil_iff,
      or_false] at hc
    rcases hc with rfl | rfl | rfl | rfl | rfl
    · rw [e1, e0, label, label]; decide
    · rw [e2, e0, label, label]; decide
    · rw [e3, e0, label, label]; decide
    · rw [e4, e0, label, label]; decide
    · rw [e5, e0, label, label]; decide
  · intro fmt a ha b hb
    simp only [reasonCodes, List.mem_cons, List.mem_singleton, List.mem_nil_iff,
      or_false] at ha hb
    rcases ha with rfl | rfl | rfl | rfl | rfl <;>
      rcases hb with rfl | rfl | rfl | rfl | rfl <;>
      simp only [e1, e2, e3, e4, e5, label] <;> decide

theorem scanOnce_failure_writes (env : ScanEnv) (reply : FetchOutcome)
    (hr : (scanOnce env).received = some reply) (hn : nullish (settle reply) = false)
    (hok : truthy (getProp (settle reply) "ok") = false) :
    (scanOnce env).writes =
      ["กำลังสแกน...",
        orCatch env.convertError (failureText env.numberToString (settle reply))] := by
  rw [scanOnce_writes_of_received env reply hr]
  simp [render, hn, hok]

/-- C3 (as the script behaves): for a reply whose `ok` is falsy the text
written is the cross followed by `res.msg` converted to a string when `msg` is
truthy, and by the default text when `msg` is falsy (missing, `null`, empty,
`false`, `0` or `NaN`); when `msg` does not convert the `catch` block writes the
cross and the message of the TypeError.  The text starts with the cross and is
a function of `msg` alone, so two such replies with the same `msg` are rendered
alike whatever their other fields.  A transport or decoding failure is rendered
with the message of its error, and a reply that is `null`, on which reading
`ok` throws, by the `catch` block. -/
theorem scanOnce_call_failure (env : ScanEnv) (reply : FetchOutcome)
    (hr : (scanOnce env).received = some reply) :
    (nullish (settle reply) = false → truthy (getProp (settle reply) "ok") = false →
      (∀ t, truthy (getProp (settle reply) "msg") = true →
        toStr env.numberToString (getProp (settle reply) "msg") = some t →
        (scanOnce env).writes = ["กำลังสแกน...", "❌ " ++ t]) ∧
      (truthy (getProp (settle reply) "msg") = false →
        (scanOnce env).writes = ["กำลังสแกน...", "❌ สแกนล้มเหลว"]) ∧
      (toStr env.numberToString (getProp (settle reply) "msg") = none →
        (scanOnce env).writes =
          ["กำลังสแกน...",
            "❌ " ++ (if env.convertError.message = "" then "เกิดข้อผิดพลาด"
              else env.convertError.message)]) ∧
      (∃ w, (scanOnce env).writes = ["กำลังสแกน...", w] ∧ startsWith "❌" w = true) ∧
      (∀ s, getProp (settle reply) "msg" = .str s → s ≠ "" →
        (scanOnce env).writes = ["กำลังสแกน...", "❌ " ++ s]) ∧
      (∀ (env2 : ScanEnv) (reply2 : FetchOutcome), (scanOnce env2).received = some reply2 →
        nullish (settle reply2) = false → truthy (getProp (settle reply2) "ok") = false →
        env2.numberToString = env.numberToString → env2.convertError = env.convertError →
        getProp (settle reply2) "msg" = getProp (settle reply) "msg" →
        (scanOnce env2).writes = (scanOnce env).writes)) ∧
    (∀ e, reply = .failed e →
      (scanOnce env).writes =
        ["กำลังสแกน...", "❌ " ++ (if e.message = "" then "สแกนล้มเหลว" else e.message)]) ∧
    (nullish (settle reply) = true →
      (scanOnce env).writes =
        ["กำลังสแกน...",
          "❌ " ++ (if env.typeError.message = "" then "เกิดข้อผิดพลาด"
            else env.typeError.message)]) := by
  refine ⟨fun hn hok => ?_, ?_, ?_⟩
  · have hw := scanOnce_failure_writes env reply hr hn hok
    refine ⟨?_, ?_, ?_, ?_, ?_, ?_⟩
    · intro t ht hs
      rw [hw]
      simp [failureText, jsOr, ht, hs, orCatch]
    · intro ht
      rw [hw]
      simp [failureText, jsOr, ht, orCatch, toStr]
    · intro hs
      have ht : truthy (getProp (settle reply) "msg") = true := by
        cases hm : getProp (settle reply) "msg" <;> rw [hm] at hs <;>
          first | rfl | simp [toStr] at hs
      rw [hw]
      simp [failureText, jsOr, ht, hs, orCatch, catchText]
    · exact ⟨_, hw, failureText_cross _ _ _⟩
    · intro s hs hne
      rw [hw]
      simp [failureText, jsOr, hs, truthy, hne, toStr, orCatch]
    · intro env2 reply2 hr2 hn2 hok2 hf hc hmsg
      rw [hw, scanOnce_failure_writes env2 reply2 hr2 hn2 hok2, hf, hc]
      simp only [failureText, hmsg]
  · intro e he
    subst he
    rw [scanOnce_failure_writes env _ hr rfl rfl]
    by_cases hm : e.message = "" <;>
      simp [failureText, jsOr, settle, getProp, lookupField, truthy, toStr, hm, orCatch]
  · intro hn
    rw [scanOnce_writes_of_received env reply hr]
    simp only [render, hn, if_true, catchText]

/-- C3, witness: a transport failure, and a server-reported failure whose other
fields look like a match. -/
theorem scanOnce_call_failure_witness :
    (scanOnce (scanEnvWith (.failed ⟨"Failed to fetch"⟩))).writes =
      ["กำลังสแกน...", "❌ Failed to fetch"] ∧
    (scanOnce (scanEnvWith (.json (.obj [("ok", .bool false), ("msg", .str "bad image"),
      ("matched", .bool true), ("name", .str "E001"),
      ("geofence", .obj [("within", .bool true)])])))).writes =
      ["กำลังสแกน...", "❌ bad image"] :=
  ⟨((scanOnce_call_failure (scanEnvWith (.failed ⟨"Failed to fetch"⟩)) _ rfl).2.1 _ rfl).trans
      (by decide),
    ((scanOnce_call_failure (scanEnvWith (.json (.obj [("ok", .bool false),
      ("msg", .str "bad image"), ("matched", .bool true), ("name", .str "E001"),
      ("geofence", .obj [("within", .bool true)])]))) _ rfl).1 rfl rfl).2.2.2.2.1
      "bad image" rfl (by decide)⟩

/-- C3, counterexample: a failure reply whose `msg` is `false`, or `0`, is
neither missing nor empty, yet the default text is written, not the cross
followed by `false` or by `0`. -/
theorem scanOnce_call_failure_falsy_msg :
    (scanOnce (scanEnvWith (.json (.obj [("ok", .bool false), ("msg", .bool false)])))).writes =
      ["กำลังสแกน...", "❌ สแกนล้มเหลว"] ∧
    specFailureText printDecimal (.obj [("ok", .bool false), ("msg", .bool false)]) =
      some "❌ false" ∧
    (scanOnce (scanEnvWith (.json (.obj [("ok", .bool false),
      ("msg", .num (.dec false 0 0))])))).writes =
      ["กำลังสแกน...", "❌ สแกนล้มเหลว"] ∧
    specFailureText printDecimal (.obj [("ok", .bool false), ("msg", .num (.dec false 0 0))]) =
      some "❌ 0" := by
  refine ⟨by decide, by decide, by decide, by decide⟩

/-- C5: when obtaining the location fix fails (no geolocation support, or the
error callback fires) no recognize request is sent, the text written starts
with the cross and no text starts with the tick; a request that is sent
carries the coordinates of a fix that was obtained. -/
theorem scanOnce_no_fix_no_request (env : ScanEnv) :
    ((env.geo = .unsupported ∨ ∃ err, env.geo = .failed err) ↔
      ∃ e, getLocationOnce env.geo = .error e) ∧
    (∀ e, getLocationOnce env.geo = .error e →
      (scanOnce env).request = none ∧ (scanOnce env).received = none ∧
      (∃ w, (scanOnce env).writes = ["กำลังสแกน...", w] ∧ startsWith "❌" w = true) ∧
      (∀ w ∈ (scanOnce env).writes, startsWith "✅" w = false) ∧
      (∀ img, env.snapBase64 = .ok img →
        (scanOnce env).writes =
          ["กำลังสแกน...", "❌ " ++ (if e.message = "" then "เกิดข้อผิดพลาด" else e.message)])) ∧
    (∀ p, (scanOnce env).request = some p →
      ∃ latitude longitude accuracy, env.geo = .position latitude longitude accuracy ∧
        getProp p "lat" = .num latitude ∧ getProp p "lng" = .num longitude ∧
        getProp p "accuracy" = .num accuracy) := by
  refine ⟨?_, ?_, ?_⟩
  · cases env.geo <;> simp [getLocationOnce]
  · intro e he
    have busy : startsWith "✅" "กำลังสแกน..." = false := by decide
    have shape : ∃ e2, scanOnce env = ⟨["กำลังสแกน...", catchText e2], none, none, none⟩ ∧
        (∀ img, env.snapBase64 = .ok img → e2 = e) := by
      rcases scanOnce_shape env with ⟨e2, h, hor⟩ | ⟨img, loc, _, hg, _⟩
      · refine ⟨e2, h, fun img hi => ?_⟩
        rcases hor with h1 | h1
        · rw [hi] at h1; cases h1
        · rw [he] at h1; cases h1; rfl
      · rw [he] at hg; cases hg
    obtain ⟨e2, h, he2⟩ := shape
    rw [h]
    refine ⟨rfl, rfl, ⟨_, rfl, catchText_cross e2⟩, ?_, ?_⟩
    · intro w hw
      simp only [List.mem_cons, List.mem_singleton, List.mem_nil_iff, or_false] at hw
      rcases hw with rfl | rfl
      · exact busy
      · exact startsWith_cross _ (catchText_cross e2)
    · intro img hi
      rw [he2 img hi]
      rfl
  · intro p hp
    rcases scanOnce_shape env with ⟨e, h, _⟩ | ⟨img, loc, _, hg, h⟩
    · rw [h] at hp; simp at hp
    · rw [h] at hp
      simp only [Option.some.injEq] at hp
      subst hp
      cases hgeo : env.geo with
      | unsupported => rw [hgeo] at hg; simp [getLocationOnce] at hg
      | failed err => rw [hgeo] at hg; simp [getLocationOnce] at hg
      | position la lo ac =>
        rw [hgeo] at hg
        simp only [getLocationOnce, Except.ok.injEq] at hg
        subst hg
        refine ⟨la, lo, ac, rfl, ?_⟩
        unfold buildPayload
        split <;> simp [getProp, lookupField]

/-- C5, witness: the user denies the position request. -/
theorem scanOnce_no_fix_no_request_witness :
    getLocationOnce (scanEnvNoFix ⟨"User denied Geolocation"⟩).geo =
      .error ⟨"User denied Geolocation"⟩ ∧
    (scanOnce (scanEnvNoFix ⟨"User denied Geolocation"⟩)).request = none ∧
    (scanOnce (scanEnvNoFix ⟨"User denied Geolocation"⟩)).writes =
      ["กำลังสแกน...", "❌ User denied Geolocation"] :=
  ⟨rfl,
    ((scanOnce_no_fix_no_request (scanEnvNoFix ⟨"User denied Geolocation"⟩)).2.1 _ rfl).1,
    (((scanOnce_no_fix_no_request (scanEnvNoFix ⟨"User denied Geolocation"⟩)).2.1 _
      rfl).2.2.2.2 _ rfl).trans (by decide)⟩

theorem scanOnce_of_fix (env : ScanEnv) (img : String) (loc : LocationFix)
    (hs : env.snapBase64 = .ok img) (hg : getLocationOnce env.geo = .ok loc) :
    scanOnce env =
      ⟨["กำลังสแกน...", render env.numberToString env.typeError env.convertError
          (settle (env.fetchRecognize (jsonStringify env.numberToString
            (buildPayload img env.typeValue loc (thresholdOf env)))))],
        some (.obj (buildPayload img env.typeValue loc (thresholdOf env))),
        some (env.fetchRecognize (jsonStringify env.numberToString
            (buildPayload img env.typeValue loc (thresholdOf env)))),
        some (jsonStringify env.numberToString
            (buildPayload img env.typeValue loc (thresholdOf env)))⟩ := by
  unfold scanOnce
  rw [hs]
  simp only
  rw [hg]

/-- C7 (as the script behaves): the threshold is not range-checked by
`scanOnce`.  Whenever a snapshot and a fix are obtained and the page has a
threshold field with value `v`, the recognize request is sent and carries
`parseFloat(v || '0.58')` as its threshold, whatever Number that is. -/
theorem scanOnce_threshold_unchecked (env : ScanEnv) (img : String) (loc : LocationFix)
    (v : String) (hs : env.snapBase64 = .ok img) (hg : getLocationOnce env.geo = .ok loc)
    (hv : (env.thresholdEl <|> env.thEl) = some v) :
    (scanOnce env).request =
      some (.obj [("image", .str img), ("type", .str env.typeValue), ("lat", .num loc.lat),
        ("lng", .num loc.lng), ("accuracy", .num loc.accuracy),
        ("threshold", .num (parseFloat (if v = "" then "0.58" else v)))]) := by
  rw [scanOnce_of_fix env img loc hs hg]
  simp only [thresholdOf, hv, buildPayload, List.cons_append, List.nil_append]

/-- C7, witness: a page whose threshold field holds `0.7`. -/
theorem scanOnce_threshold_unchecked_witness :
    (scanOnce (scanEnvThreshold "0.7")).request =
      some (.obj [("image", .str "data:image/jpeg;base64,AAAA"), ("type", .str "in"),
        ("lat", .num (.dec false 137563 (-4))), ("lng", .num (.dec false 1005018 (-4))),
        ("accuracy", .num (.dec false 12 0)),
        ("threshold", .num (.dec false 7 (-1)))]) :=
  scanOnce_threshold_unchecked (scanEnvThreshold "0.7") _ ⟨_, _, _⟩ "0.7" rfl rfl rfl

/-- C7, counterexample: with `5` in the threshold field the recognize request
is sent with threshold 5, and with `abc` it is sent with threshold `NaN`;
neither lies strictly inside (0,1). -/
theorem scanOnce_threshold_out_of_range_sent :
    (scanOnce (scanEnvThreshold "5")).request =
      some (.obj [("image", .str "data:image/jpeg;base64,AAAA"), ("type", .str "in"),
        ("lat", .num (.dec false 137563 (-4))), ("lng", .num (.dec false 1005018 (-4))),
        ("accuracy", .num (.dec false 12 0)), ("threshold", .num (.dec false 5 0))]) ∧
    insideOpenUnit (.dec false 5 0) = false ∧
    getProp ((scanOnce (scanEnvThreshold "abc")).request.getD .undefined) "threshold" = .num .nan ∧
    insideOpenUnit .nan = false ∧
    ¬ (∀ (env : ScanEnv) (p : JSVal) (t : JSNum), (scanOnce env).request = some p →
        getProp p "threshold" = .num t → insideOpenUnit t = true) := by
  refine ⟨rfl, by decide, rfl, rfl, fun h => ?_⟩
  have := h (scanEnvThreshold "5") _ (.dec false 5 0) rfl rfl
  exact absurd this (by decide)

theorem jsonStringify_payload (fmt : JSNum → String) (img type : String) (loc : LocationFix)
    (field : Option String) :
    jsonStringify fmt (buildPayload img type loc
        (match field with
          | some v => .num (parseFloat (if v = "" then "0.58" else v))
          | none => .undefined)) =
      "\x7b\"image\":" ++ jsonQuote img ++ ",\"type\":" ++ jsonQuote type ++
        ",\"lat\":" ++ jsonNumber fmt loc.lat ++ ",\"lng\":" ++ jsonNumber fmt loc.lng ++
        ",\"accuracy\":" ++ jsonNumber fmt loc.accuracy ++
        (match field with
          | some v =>
            ",\"threshold\":" ++ jsonNumber fmt (parseFloat (if v = "" then "0.58" else v))
          | none => "") ++ "\x7d" := by
  have hq : jsonQuote "image" = "\"image\"" ∧ jsonQuote "type" = "\"type\"" ∧
      jsonQuote "lat" = "\"lat\"" ∧ jsonQuote "lng" = "\"lng\"" ∧
      jsonQuote "accuracy" = "\"accuracy\"" ∧ jsonQuote "threshold" = "\"threshold\"" := by
    decide
  obtain ⟨q1, q2, q3, q4, q5, q6⟩ := hq
  cases field with
  | none =>
    simp only [jsonStringify, buildPayload, jsonMembers, jsonValue, joinComma, q1, q2, q3, q4, q5]
    apply String.ext
    simp [String.data_append, List.append_assoc]
  | some v =>
    simp only [jsonStringify, buildPayload, List.cons_append, List.nil_append, jsonMembers,
      jsonValue, joinComma, q1, q2, q3, q4, q5, q6]
    apply String.ext
    simp [String.data_append, List.append_assoc]

/-- C6 (as the script behaves): the body of a recognize request that is sent is
the serialisation of the payload with the keys `image`, `type`, `lat`, `lng`,
`accuracy`, holding the snapshot, the value of the type field and the three
readings of the fix, followed by the key `threshold` exactly when the page has
a threshold field (`threshold`, else `th`), holding `parseFloat` of its value,
or of `0.58` when the value is empty.  In the body a Number that is `NaN` or
infinite is written as `null`; when every Number is finite the body is the one
the contract describes.  The request is sent for every snapshot and every fix,
whatever its accuracy. -/
theorem scanOnce_body (env : ScanEnv) :
    (∀ b, (scanOnce env).body = some b →
      ∃ img latitude longitude accuracy,
        env.snapBase64 = .ok img ∧ env.geo = .position latitude longitude accuracy ∧
        (scanOnce env).request =
          some (.obj ([("image", .str img), ("type", .str env.typeValue),
            ("lat", .num latitude), ("lng", .num longitude), ("accuracy", .num accuracy)] ++
            (match env.thresholdEl <|> env.thEl with
              | some v => [("threshold", .num (parseFloat (if v = "" then "0.58" else v)))]
              | none => []))) ∧
        b = "\x7b\"image\":" ++ jsonQuote img ++ ",\"type\":" ++ jsonQuote env.typeValue ++
          ",\"lat\":" ++ jsonNumber env.numberToString latitude ++
          ",\"lng\":" ++ jsonNumber env.numberToString longitude ++
          ",\"accuracy\":" ++ jsonNumber env.numberToString accuracy ++
          (match env.thresholdEl <|> env.thEl with
            | some v =>
              ",\"threshold\":" ++
                jsonNumber env.numberToString (parseFloat (if v = "" then "0.58" else v))
            | none => "") ++ "\x7d" ∧
        (numberFinite latitude = true → numberFinite longitude = true →
          numberFinite accuracy = true →
          (∀ v, (env.thresholdEl <|> env.thEl) = some v →
            numberFinite (parseFloat (if v = "" then "0.58" else v)) = true) →
          b = specRecognizeBody env.numberToString img env.typeValue
            ⟨latitude, longitude, accuracy⟩ (env.thresholdEl <|> env.thEl))) ∧
    (∀ img latitude longitude accuracy, env.snapBase64 = .ok img →
      env.geo = .position latitude longitude accuracy → ∃ b, (scanOnce env).body = some b) ∧
    ((∀ v, env.thresholdEl = some v → (env.thresholdEl <|> env.thEl) = some v) ∧
      (env.thresholdEl = none → (env.thresholdEl <|> env.thEl) = env.thEl)) ∧
    ((∀ n, numberFinite n = true → jsonNumber env.numberToString n = env.numberToString n) ∧
      (∀ n, numberFinite n = false → jsonNumber env.numberToString n = "null")) ∧
    (parseFloat "0.58" = .dec false 58 (-2) ∧ parseFloat "0.7" = .dec false 7 (-1) ∧
      parseFloat "5" = .dec false 5 0 ∧ parseFloat " -12.5e-3xyz" = .dec true 125 (-4) ∧
      parseFloat ".5" = .dec false 5 (-1) ∧ parseFloat "abc" = .nan ∧
      parseFloat "-Infinity" = .inf true ∧ parseFloat "1e999" = .dec false 1 999 ∧
      numberFinite (.dec false 1 999) = false ∧ numberFinite (.dec false 58 (-2)) = true ∧
      numberFinite .nan = false ∧ numberFinite (.inf true) = false ∧
      jsonQuote "in" = "\"in\"" ∧ jsonQuote "a\"b\\c\n\x01" = "\"a\\\"b\\\\c\\n\\u0001\"") ∧
    jsonStringify env.numberToString
        [("code", .str "E001"), ("skipped", .undefined),
          ("images", .arr [.str "a", .undefined, .null, .bool true, .num .nan,
            .obj [("k", .undefined)]])] =
      "\x7b\"code\":\"E001\",\"images\":[\"a\",null,null,true,null,\x7b\x7d]\x7d" := by
  refine ⟨?_, ?_, ⟨?_, ?_⟩, ⟨?_, ?_⟩, by decide, rfl⟩
  · intro b hb
    rcases scanOnce_shape env with ⟨e, h, _⟩ | ⟨img, loc, hs, hg, h⟩
    · rw [h] at hb; simp at hb
    · cases hgeo : env.geo with
      | unsupported => rw [hgeo] at hg; simp [getLocationOnce] at hg
      | failed err => rw [hgeo] at hg; simp [getLocationOnce] at hg
      | position la lo ac =>
        rw [hgeo] at hg
        simp only [getLocationOnce, Except.ok.injEq] at hg
        subst hg
        have hth : thresholdOf env =
            (match env.thresholdEl <|> env.thEl with
              | some v => JSVal.num (parseFloat (if v = "" then "0.58" else v))
              | none => JSVal.undefined) := rfl
        have hbody := jsonStringify_payload env.numberToString img env.typeValue
          ⟨la, lo, ac⟩ (env.thresholdEl <|> env.thEl)
        rw [← hth] at hbody
        rw [h] at hb ⊢
        simp only [Option.some.injEq] at hb
        refine ⟨img, la, lo, ac, hs, rfl, ?_, ?_, ?_⟩
        · rw [hth]
          cases env.thresholdEl <|> env.thEl <;> rfl
        · rw [← hb, hbody]
        · intro f1 f2 f3 f4
          rw [← hb, hbody]
          unfold specRecognizeBody
          cases hfield : env.thresholdEl <|> env.thEl with
          | none => simp [jsonNumber, f1, f2, f3]
          | some v =>
            have f5 := f4 v hfield
            simp [jsonNumber, f1, f2, f3, f5]
  · intro img la lo ac hs hgeo
    have hg : getLocationOnce env.geo = .ok ⟨la, lo, ac⟩ := by rw [hgeo]; rfl
    rw [scanOnce_of_fix env img _ hs hg]
    exact ⟨_, rfl⟩
  · intro v hv
    rw [hv]; rfl
  · intro hv
    rw [hv]; rfl
  · intro n hn
    simp [jsonNumber, hn]
  · intro n hn
    simp [jsonNumber, hn]

/-- C6, witness: a page whose threshold field is empty sends the default 0.58
next to the snapshot, the type and the fix, although the accuracy is 120 m. -/
theorem scanOnce_body_witness :
    (scanOnce scanEnvCoarseFix).body =
      some ("\x7b\"image\":\"data:image/jpeg;base64,AAAA\",\"type\":\"in\"," ++
        "\"lat\":13.7563,\"lng\":100.5018,\"accuracy\":120,\"threshold\":0.58\x7d") ∧
    ∃ b, (scanOnce scanEnvCoarseFix).body = some b :=
  ⟨by decide, (scanOnce_body scanEnvCoarseFix).2.1 _ _ _ _ rfl rfl⟩

/-- C6, counterexample: with `abc` in the threshold field `parseFloat` gives
`NaN` and the body carries `null` for the threshold; with `1e999` it gives
`Infinity` and the body carries `null` as well. -/
theorem scanOnce_body_threshold_null :
    parseFloat "abc" = .nan ∧
    (scanOnce (scanEnvThreshold "abc")).body =
      some ("\x7b\"image\":\"data:image/jpeg;base64,AAAA\",\"type\":\"in\"," ++
        "\"lat\":13.7563,\"lng\":100.5018,\"accuracy\":12,\"threshold\":null\x7d") ∧
    specRecognizeBody printDecimal "data:image/jpeg;base64,AAAA" "in"
        ⟨.dec false 137563 (-4), .dec false 1005018 (-4), .dec false 12 0⟩ (some "abc") =
      "\x7b\"image\":\"data:image/jpeg;base64,AAAA\",\"type\":\"in\"," ++
        "\"lat\":13.7563,\"lng\":100.5018,\"accuracy\":12,\"threshold\":NaN\x7d" ∧
    (scanOnce (scanEnvThreshold "abc")).body ≠
      some (specRecognizeBody printDecimal "data:image/jpeg;base64,AAAA" "in"
        ⟨.dec false 137563 (-4), .dec false 1005018 (-4), .dec false 12 0⟩ (some "abc")) ∧
    parseFloat "1e999" = .dec false 1 999 ∧ numberFinite (.dec false 1 999) = false ∧
    (scanOnce (scanEnvThreshold "1e999")).body =
      some ("\x7b\"image\":\"data:image/jpeg;base64,AAAA\",\"type\":\"in\"," ++
        "\"lat\":13.7563,\"lng\":100.5018,\"accuracy\":12,\"threshold\":null\x7d") := by
  refine ⟨by decide, by decide, by decide, by decide, by decide, by decide, by decide⟩

theorem scanOnce_denial_writes (env : ScanEnv) (v : JSVal)
    (hr : (scanOnce env).received = some (.json v))
    (hok : truthy (getProp v "ok") = true)
    (hden : (truthy (getProp v "matched") &&
      truthy (getProp (getProp v "geofence") "within")) = false) :
    (scanOnce env).writes =
      ["กำลังสแกน...", orCatch env.convertError
        (denialText env.numberToString v (jsOr (getProp v "geofence") (.obj [])))] := by
  rw [scanOnce_writes_of_received env _ hr]
  have hn : nullish v = false := by
    cases v <;> first | rfl | simp [getProp, truthy] at hok
  simp [render, settle, hn, hok, getProp_jsOr_empty, hden]

theorem denialText_some (fmt : JSNum → String) (res gf : JSVal)
    (ident score reason dist : String)
    (h1 : identityShown fmt res = some ident) (h2 : toStr fmt (getProp res "score") = some score)
    (h3 : toStr fmt (humanReason (getProp gf "reason")) = some reason)
    (h4 : distanceSuffix fmt gf = some dist) :
    denialText fmt res gf =
      some ("❌ " ++ ident ++ " | score=" ++ score ++ " | " ++ reason ++ dist) := by
  simp [denialText, h1, h2, h3, h4]

theorem denialText_none (fmt : JSNum → String) (res gf : JSVal)
    (h : identityShown fmt res = none ∨ toStr fmt (getProp res "score") = none ∨
      toStr fmt (humanReason (getProp gf "reason")) = none ∨ distanceSuffix fmt gf = none) :
    denialText fmt res gf = none := by
  unfold denialText
  rcases h with h | h | h | h
  · rw [h]
    cases distanceSuffix fmt gf <;> rfl
  · rw [h]
    cases distanceSuffix fmt gf <;> cases identityShown fmt res <;> rfl
  · rw [h]
    cases distanceSuffix fmt gf <;> cases identityShown fmt res <;>
      cases toStr fmt (getProp res "score") <;> rfl
  · rw [h]

/-- C2 (as the script behaves): for a reply with truthy `ok` that is rendered
as a denial, the reason text shown is always the label of `geofence.reason`
(the geofence read as the empty object when missing), between the identity and
score and the distance suffix; when one of the printed fields does not convert
the `catch` block writes its text instead.  When the geofence failed this is
the text the contract asks for; when the geofence passed and the face did not
match, the contract text is shown exactly when the label of `geofence.reason`
is the label of `face_not_matched`, and the label of `ok` is shown when
`geofence.reason` is `ok`. -/
theorem scanOnce_denial_reason (env : ScanEnv) (v : JSVal)
    (hr : (scanOnce env).received = some (.json v))
    (hok : truthy (getProp v "ok") = true)
    (hden : (truthy (getProp v "matched") &&
      truthy (getProp (getProp v "geofence") "within")) = false) :
    (∀ ident score reason dist,
      identityShown env.numberToString v = some ident →
      toStr env.numberToString (getProp v "score") = some score →
      toStr env.numberToString
        (humanReason (getProp (jsOr (getProp v "geofence") (.obj [])) "reason")) = some reason →
      distanceSuffix env.numberToString (jsOr (getProp v "geofence") (.obj [])) = some dist →
      (scanOnce env).writes =
          ["กำลังสแกน...", "❌ " ++ ident ++ " | score=" ++ score ++ " | " ++ reason ++ dist] ∧
        (truthy (getProp (getProp v "geofence") "within") = true →
          ((scanOnce env).writes =
              ["กำลังสแกน...", orCatch env.convertError (specDenialText env.numberToString v)] ↔
            reason = "จำหน้าไม่สำเร็จ"))) ∧
    ((identityShown env.numberToString v = none ∨
        toStr env.numberToString (getProp v "score") = none ∨
        toStr env.numberToString
          (humanReason (getProp (jsOr (getProp v "geofence") (.obj [])) "reason")) = none ∨
        distanceSuffix env.numberToString (jsOr (getProp v "geofence") (.obj [])) = none) →
      (scanOnce env).writes =
        ["กำลังสแกน...",
          "❌ " ++ (if env.convertError.message = "" then "เกิดข้อผิดพลาด"
            else env.convertError.message)]) ∧
    (truthy (getProp (getProp v "geofence") "within") = false →
      (scanOnce env).writes =
        ["กำลังสแกน...", orCatch env.convertError (specDenialText env.numberToString v)]) ∧
    (getProp (getProp v "geofence") "reason" = .str "ok" →
      toStr env.numberToString
        (humanReason (getProp (jsOr (getProp v "geofence") (.obj [])) "reason")) =
        some "อยู่ในรัศมี") ∧
    ((nullish (getProp (getProp v "geofence") "distance_m") = true →
        distanceSuffix env.numberToString (jsOr (getProp v "geofence") (.obj [])) = some "") ∧
      (∀ t, nullish (getProp (getProp v "geofence") "distance_m") = false →
        toStr env.numberToString (getProp (getProp v "geofence") "distance_m") = some t →
        distanceSuffix env.numberToString (jsOr (getProp v "geofence") (.obj [])) =
          some (" (ห่าง ~" ++ t ++ " m)"))) := by
  have hw := scanOnce_denial_writes env v hr hok hden
  refine ⟨?_, ?_, ?_, ?_, ?_, ?_⟩
  · intro ident score reason dist h1 h2 h3 h4
    have hd := denialText_some _ _ _ _ _ _ _ h1 h2 h3 h4
    refine ⟨by rw [hw, hd]; rfl, fun hwi => ?_⟩
    have hspec : specDenialText env.numberToString v =
        some ("❌ " ++ ident ++ " | score=" ++ score ++ " | " ++ "จำหน้าไม่สำเร็จ" ++ dist) := by
      simp only [specDenialText, specReason, getProp_jsOr_empty, hwi, if_true, h1, h2, h4]
      rfl
    rw [hw, hd, hspec]
    simp only [orCatch, List.cons.injEq, true_and, and_true]
    constructor
    · intro h
      have h2 := congrArg String.data h
      simp only [String.data_append, List.append_assoc] at h2
      have h3 := List.append_cancel_left h2
      have h4 := List.append_cancel_left h3
      have h5 := List.append_cancel_left h4
      have h6 := List.append_cancel_left h5
      have h7 := List.append_cancel_left h6
      have h8 := List.append_cancel_right h7
      exact String.ext h8
    · intro h
      rw [h]
  · intro h
    rw [hw, denialText_none _ _ _ h]
    rfl
  · intro hwi
    rw [hw]
    simp only [specDenialText, specReason, denialText, getProp_jsOr_empty, hwi]
    rfl
  · intro h
    rw [getProp_jsOr_empty, h]
    rfl
  · intro h
    simp [distanceSuffix, getProp_jsOr_empty, h]
  · intro t hn ht
    simp [distanceSuffix, getProp_jsOr_empty, hn, ht]

/-- C2, witness: a matched face 500 m outside the nearest site is denied with
the label of `outside_radius`. -/
theorem scanOnce_denial_reason_witness :
    (scanOnce (scanEnvWith (.json matchedOutsideReply))).writes =
      ["กำลังสแกน...", "❌ E001 | score=0.97 | อยู่นอกรัศมี (ห่าง ~500 m)"] :=
  ((scanOnce_denial_reason (scanEnvWith (.json matchedOutsideReply)) matchedOutsideReply
    rfl rfl rfl).1 "E001" "0.97" "อยู่นอกรัศมี" " (ห่าง ~500 m)"
      (by decide) (by decide) (by decide) (by decide)).1.trans (by decide)

/-- C2, counterexample: a face that did not match, scanned inside the radius
(`geofence.reason` is `ok`), is denied with the label of `ok` in the place of
the reason, not with the label of `face_not_matched`. -/
theorem scanOnce_denial_shows_ok_label :
    (scanOnce (scanEnvWith (.json unmatchedInsideReply))).received =
      some (.json unmatchedInsideReply) ∧
    truthy (getProp unmatchedInsideReply "ok") = true ∧
    truthy (getProp unmatchedInsideReply "matched") = false ∧
    truthy (getProp (getProp unmatchedInsideReply "geofence") "within") = true ∧
    (scanOnce (scanEnvWith (.json unmatchedInsideReply))).writes =
      ["กำลังสแกน...", "❌ Unknown | score=0.3 | อยู่ในรัศมี (ห่าง ~5 m)"] ∧
    specDenialText printDecimal unmatchedInsideReply =
      some "❌ Unknown | score=0.3 | จำหน้าไม่สำเร็จ (ห่าง ~5 m)" ∧
    (scanOnce (scanEnvWith (.json unmatchedInsideReply))).writes ≠
      ["กำลังสแกน...", "❌ Unknown | score=0.3 | จำหน้าไม่สำเร็จ (ห่าง ~5 m)"] ∧
    humanReason (.str "ok") = .str "อยู่ในรัศมี" := by
  refine ⟨rfl, rfl, rfl, rfl, by decide, by decide, by decide, rfl⟩

/-- C10: in a denial rendered for a reply with truthy `ok`, the identity shown
is the literal `Unknown` when `matched` is falsy, whatever `res.name` holds (it
is not even converted), and it is `res.name` when `matched` is truthy; when a
printed field does not convert, no denial is rendered and the `catch` block
writes its text. -/
theorem scanOnce_denial_identity (env : ScanEnv) (v : JSVal)
    (hr : (scanOnce env).received = some (.json v))
    (hok : truthy (getProp v "ok") = true)
    (hden : (truthy (getProp v "matched") &&
      truthy (getProp (getProp v "geofence") "within")) = false) :
    (truthy (getProp v "matched") = false →
      (∀ score reason dist,
        toStr env.numberToString (getProp v "score") = some score →
        toStr env.numberToString
          (humanReason (getProp (jsOr (getProp v "geofence") (.obj [])) "reason")) =
            some reason →
        distanceSuffix env.numberToString (jsOr (getProp v "geofence") (.obj [])) = some dist →
        (scanOnce env).writes =
          ["กำลังสแกน...",
            "❌ " ++ "Unknown" ++ " | score=" ++ score ++ " | " ++ reason ++ dist]) ∧
      (∀ (env2 : ScanEnv) (v2 : JSVal), (scanOnce env2).received = some (.json v2) →
        truthy (getProp v2 "ok") = true → truthy (getProp v2 "matched") = false →
        env2.numberToString = env.numberToString → env2.convertError = env.convertError →
        getProp v2 "score" = getProp v "score" → getProp v2 "geofence" = getProp v "geofence" →
        (scanOnce env2).writes = (scanOnce env).writes)) ∧
    (truthy (getProp v "matched") = true →
      (∀ ident score reason dist,
        toStr env.numberToString (getProp v "name") = some ident →
        toStr env.numberToString (getProp v "score") = some score →
        toStr env.numberToString
          (humanReason (getProp (jsOr (getProp v "geofence") (.obj [])) "reason")) =
            some reason →
        distanceSuffix env.numberToString (jsOr (getProp v "geofence") (.obj [])) = some dist →
        (scanOnce env).writes =
          ["กำลังสแกน...", "❌ " ++ ident ++ " | score=" ++ score ++ " | " ++ reason ++ dist]) ∧
      (toStr env.numberToString (getProp v "name") = none →
        (scanOnce env).writes =
          ["กำลังสแกน...",
            "❌ " ++ (if env.convertError.message = "" then "เกิดข้อผิดพลาด"
              else env.convertError.message)])) ∧
    ((toStr env.numberToString (getProp v "score") = none ∨
        toStr env.numberToString
          (humanReason (getProp (jsOr (getProp v "geofence") (.obj [])) "reason")) = none ∨
        distanceSuffix env.numberToString (jsOr (getProp v "geofence") (.obj [])) = none) →
      (scanOnce env).writes =
        ["กำลังสแกน...",
          "❌ " ++ (if env.convertError.message = "" then "เกิดข้อผิดพลาด"
            else env.convertError.message)]) := by
  have hw := scanOnce_denial_writes env v hr hok hden
  refine ⟨fun hm => ⟨?_, ?_⟩, fun hm => ⟨?_, ?_⟩, ?_⟩
  · intro score reason dist h2 h3 h4
    have h1 : identityShown env.numberToString v = some "Unknown" := by
      simp [identityShown, hm]
    rw [hw, denialText_some _ _ _ _ _ _ _ h1 h2 h3 h4]
    rfl
  · intro env2 v2 hr2 hok2 hm2 hf hc hs hg
    have hden2 : (truthy (getProp v2 "matched") &&
        truthy (getProp (getProp v2 "geofence") "within")) = false := by simp [hm2]
    rw [hw, scanOnce_denial_writes env2 v2 hr2 hok2 hden2, hf, hc]
    simp only [denialText, identityShown, hm, hm2, hs, hg, Bool.false_eq_true, if_false]
  · intro ident score reason dist h1 h2 h3 h4
    have h1b : identityShown env.numberToString v = some ident := by
      simp [identityShown, hm, h1]
    rw [hw, denialText_some _ _ _ _ _ _ _ h1b h2 h3 h4]
    rfl
  · intro h1
    have h1b : identityShown env.numberToString v = none := by
      simp [identityShown, hm, h1]
    rw [hw, denialText_none _ _ _ (Or.inl h1b)]
    rfl
  · intro h
    rw [hw, denialText_none _ _ _ (Or.inr h)]
    rfl

/-- C10, witness: the best candidate `E001` of an unmatched face is not
displayed. -/
theorem scanOnce_denial_identity_witness :
    getProp unmatchedInsideReply "name" = .str "E001" ∧
    (scanOnce (scanEnvWith (.json unmatchedInsideReply))).writes =
      ["กำลังสแกน...", "❌ Unknown | score=0.3 | อยู่ในรัศมี (ห่าง ~5 m)"] :=
  ⟨rfl, (((scanOnce_denial_identity (scanEnvWith (.json unmatchedInsideReply))
    unmatchedInsideReply rfl rfl rfl).1 rfl).1 "0.3" "อยู่ในรัศมี" " (ห่าง ~5 m)"
      (by decide) (by decide) (by decide)).trans (by decide)⟩

/-! ## Lemmas on `trim` and the capture loop -/

theorem head?_dropWhile_ws (l : List Char) (c : Char)
    (h : (l.dropWhile isWhiteSpace).head? = some c) : isWhiteSpace c = false := by
  have := List.head?_dropWhile_not isWhiteSpace l
  rw [h] at this
  exact this

theorem dropWhile_ws_eq_nil (l : List Char) :
    l.dropWhile isWhiteSpace = [] ↔ ∀ c ∈ l, isWhiteSpace c = true := by
  induction l with
  | nil => simp
  | cons a t ih =>
    by_cases ha : isWhiteSpace a = true
    · simp [List.dropWhile_cons, ha, ih]
    · simp [List.dropWhile_cons, ha]

theorem trim_eq_empty_iff (s : String) :
    trim s = "" ↔ ∀ c ∈ s.data, isWhiteSpace c = true := by
  have h1 : trim s = "" ↔
      ((s.data.dropWhile isWhiteSpace).reverse.dropWhile isWhiteSpace) = [] := by
    rw [String.ext_iff]
    show ((s.data.dropWhile isWhiteSpace).reverse.dropWhile isWhiteSpace).reverse = [] ↔ _
    exact List.reverse_eq_nil_iff
  rw [h1, dropWhile_ws_eq_nil]
  constructor
  · intro h
    have h2 : s.data.dropWhile isWhiteSpace = [] := by
      cases hl : s.data.dropWhile isWhiteSpace with
      | nil => rfl
      | cons a t =>
        have hws : isWhiteSpace a = true := h a (by simp [hl])
        have hnot := head?_dropWhile_ws s.data a (by simp [hl])
        rw [hws] at hnot
        cases hnot
    exact (dropWhile_ws_eq_nil _).1 h2
  · intro h c hc
    have h2 := (dropWhile_ws_eq_nil _).2 h
    rw [h2] at hc
    simp at hc

theorem trim_head_not_ws (s : String) (c : Char) (h : (trim s).data.head? = some c) :
    isWhiteSpace c = false := by
  have hd : (trim s).data =
      ((s.data.dropWhile isWhiteSpace).reverse.dropWhile isWhiteSpace).reverse := rfl
  rw [hd, List.head?_reverse] at h
  obtain ⟨t, ht⟩ := List.dropWhile_suffix (l := (s.data.dropWhile isWhiteSpace).reverse) isWhiteSpace
  have h3 : (s.data.dropWhile isWhiteSpace).reverse.getLast? = some c := by
    rw [← ht, List.getLast?_append, h]
    rfl
  rw [List.getLast?_reverse] at h3
  exact head?_dropWhile_ws _ _ h3

theorem trim_last_not_ws (s : String) (c : Char) (h : (trim s).data.getLast? = some c) :
    isWhiteSpace c = false := by
  have hd : (trim s).data =
      ((s.data.dropWhile isWhiteSpace).reverse.dropWhile isWhiteSpace).reverse := rfl
  rw [hd, List.getLast?_reverse] at h
  exact head?_dropWhile_ws _ _ h

theorem two_pow_32 : (2 : Nat) ^ 32 = 4294967296 := by norm_num

theorem exceeds_of_turns (n : Count) (k i : Nat) (h : n.turns = some k) :
    n.exceeds i = decide (i < k) := by
  cases n with
  | nan =>
    simp only [Count.turns, Option.some.injEq] at h
    subst h
    simp [Count.exceeds]
  | inf neg =>
    cases neg with
    | true =>
      simp only [Count.turns, if_true, Option.some.injEq] at h
      subst h
      simp [Count.exceeds]
    | false => simp [Count.turns] at h
  | int neg m =>
    cases neg with
    | true =>
      simp only [Count.turns, if_true, Option.some.injEq] at h
      subst h
      simp [Count.exceeds]
    | false =>
      simp only [Count.turns, Bool.false_eq_true, if_false, Option.some.injEq] at h
      subst h
      simp [Count.exceeds]

theorem exceeds_of_unbounded (n : Count) (i : Nat) (h : n.turns = none) :
    n.exceeds i = true := by
  cases n with
  | nan => simp [Count.turns] at h
  | inf neg =>
    cases neg with
    | true => simp [Count.turns] at h
    | false => rfl
  | int neg m => cases neg <;> simp [Count.turns] at h

theorem turns_of_exceeds (n : Count) (len : Nat) (h1 : n.exceeds len = false)
    (h2 : ∀ j, j < len → n.exceeds j = true) : n.turns = some len := by
  cases ht : n.turns with
  | none => rw [exceeds_of_unbounded n len ht] at h1; cases h1
  | some k =>
    rw [exceeds_of_turns n k len ht] at h1
    have hk : k ≤ len := by simpa using h1
    by_cases hlt : k < len
    · have := h2 k hlt
      rw [exceeds_of_turns n k k ht] at this
      simp at this
    · have : k = len := by omega
      rw [this]

theorem captureLoop_done (snap : Nat → Except JSError String) (re : JSError) (n : Count) :
    ∀ (fuel i : Nat) (frames fs : List String),
      captureLoop snap re n fuel i frames = some (fs, none) →
      ∃ more : List String, fs = frames ++ more ∧ n.exceeds (i + more.length) = false ∧
        (∀ j, j < more.length → n.exceeds (i + j) = true) ∧
        (∀ j (hj : j < more.length), snap (frames.length + j) = .ok (more.get ⟨j, hj⟩)) ∧
        (more = [] ∨ fs.length < 2 ^ 32) := by
  intro fuel
  induction fuel with
  | zero =>
    intro i frames fs h
    unfold captureLoop at h
    by_cases hi : n.exceeds i = true
    · simp [hi] at h
    · have hi2 : n.exceeds i = false := by simpa using hi
      rw [hi2] at h
      simp only [Bool.false_eq_true, if_false, Option.some.injEq, Prod.mk.injEq, and_true] at h
      refine ⟨[], by simp [h], by simpa using hi2, ?_, ?_, Or.inl rfl⟩
      · intro j hj; simp at hj
      · intro j hj; simp at hj
  | succ fuel ih =>
    intro i frames fs h
    unfold captureLoop at h
    by_cases hi : n.exceeds i = true
    · simp only [hi, if_true] at h
      cases hsnap : snap frames.length with
      | error e => simp [hsnap] at h
      | ok img =>
        simp only [hsnap] at h
        by_cases hlen : frames.length + 1 < 2 ^ 32
        · simp only [hlen, if_true] at h
          obtain ⟨more, hfs, hex, hall, hget, hbound⟩ := ih (i + 1) (frames ++ [img]) fs h
          refine ⟨img :: more, by simp [hfs], ?_, ?_, ?_, Or.inr ?_⟩
          · simpa [Nat.add_assoc, Nat.add_comm 1] using hex
          · intro j hj
            cases j with
            | zero => simpa using hi
            | succ j =>
              have hj2 : j < more.length := by simpa using hj
              have := hall j hj2
              simpa [Nat.add_assoc, Nat.add_comm 1 j] using this
          · intro j hj
            cases j with
            | zero => simpa using hsnap
            | succ j =>
              have hj2 : j < more.length := by simpa using hj
              have := hget j hj2
              simp only [List.length_append, List.length_singleton] at this
              simpa [Nat.add_assoc, Nat.add_comm 1 j] using this
          · rcases hbound with hm | hb
            · subst hm
              rw [hfs]
              simpa using hlen
            · exact hb
        · rw [if_neg hlen] at h
          simp at h
    · have hi2 : n.exceeds i = false := by simpa using hi
      rw [hi2] at h
      simp only [Bool.false_eq_true, if_false, Option.some.injEq, Prod.mk.injEq, and_true] at h
      refine ⟨[], by simp [h], by simpa using hi2, ?_, ?_, Or.inl rfl⟩
      · intro j hj; simp at hj
      · intro j hj; simp at hj

theorem captureLoop_total (snap : Nat → Except JSError String) (re : JSError) (n : Count)
    (k : Nat) (hsnap : ∀ j, ∃ img, snap j = .ok img) (hk : n.turns = some k)
    (hbound : k < 2 ^ 32) :
    ∀ (fuel i : Nat) (frames : List String), frames.length = i → i ≤ k → k - i ≤ fuel →
      ∃ fs, captureLoop snap re n fuel i frames = some (fs, none) := by
  intro fuel
  induction fuel with
  | zero =>
    intro i frames _ hik hf
    have hi : n.exceeds i = false := by
      rw [exceeds_of_turns n k i hk]
      simp; omega
    exact ⟨frames, by unfold captureLoop; simp [hi]⟩
  | succ fuel ih =>
    intro i frames hlen hik hf
    unfold captureLoop
    by_cases hi : i < k
    · have hex : n.exceeds i = true := by
        rw [exceeds_of_turns n k i hk]
        simpa using hi
      obtain ⟨img, himg⟩ := hsnap frames.length
      have hl : frames.length + 1 < 2 ^ 32 := by omega
      simp only [hex, if_true, himg, hl]
      exact ih (i + 1) (frames ++ [img]) (by simp [hlen]) (by omega) (by omega)
    · have hex : n.exceeds i = false := by
        rw [exceeds_of_turns n k i hk]
        simpa using hi
      exact ⟨frames, by simp [hex]⟩

theorem captureLoop_overflow (snap : Nat → Except JSError String) (re : JSError) (n : Count)
    (hsnap : ∀ j, ∃ img, snap j = .ok img) (hbig : ∀ i, i < 2 ^ 32 → n.exceeds i = true) :
    ∀ (fuel i : Nat) (frames : List String), frames.length = i → i < 2 ^ 32 →
      (captureLoop snap re n fuel i frames = none ∨
        ∃ fs, captureLoop snap re n fuel i frames = some (fs, some re) ∧
          fs.length + 1 = 2 ^ 32) ∧
      (2 ^ 32 - i ≤ fuel →
        ∃ fs, captureLoop snap re n fuel i frames = some (fs, some re) ∧
          fs.length + 1 = 2 ^ 32) := by
  intro fuel
  induction fuel with
  | zero =>
    intro i frames _ hi
    have hex := hbig i hi
    refine ⟨Or.inl (by unfold captureLoop; simp [hex]), fun hf => ?_⟩
    omega
  | succ fuel ih =>
    intro i frames hlen hi
    have hex := hbig i hi
    obtain ⟨img, himg⟩ := hsnap frames.length
    unfold captureLoop
    simp only [hex, if_true, himg]
    by_cases hl : frames.length + 1 < 2 ^ 32
    · simp only [hl, if_true]
      have := ih (i + 1) (frames ++ [img]) (by simp [hlen]) (by omega)
      exact ⟨this.1, fun hf => this.2 (by omega)⟩
    · simp only [hl, if_false]
      have hlast : frames.length + 1 = 2 ^ 32 := by omega
      exact ⟨Or.inr ⟨frames, rfl, hlast⟩, fun _ => ⟨frames, rfl, hlast⟩⟩

theorem doEnroll_request_shape (env : EnrollEnv) (fuel : Nat) (out : EnrollOutcome) (p : JSVal)
    (h : doEnroll fuel env = some out) (hp : out.request = some p) :
    trim env.codeValue ≠ "" ∧
    ∃ frames : List String,
      captureLoop env.snapBase64 env.rangeError (frameCount env.framesValue) fuel 0 [] =
        some (frames, none) ∧
      p = .obj [("code", .str (trim env.codeValue)), ("images", .arr (frames.map .str))] ∧
      out.snapshots = frames.length := by
  unfold doEnroll at h
  by_cases hc : trim env.codeValue = ""
  · simp only [hc, if_true, Option.some.injEq] at h
    subst h
    simp at hp
  · refine ⟨hc, ?_⟩
    simp only [hc, if_false] at h
    cases hl : captureLoop env.snapBase64 env.rangeError (frameCount env.framesValue) fuel 0 []
      with
    | none => simp [hl] at h
    | some r =>
      obtain ⟨frames, oe⟩ := r
      cases oe with
      | some e =>
        simp only [hl, Option.some.injEq] at h
        subst h
        simp at hp
      | none =>
        simp only [hl] at h
        refine ⟨frames, rfl, ?_⟩
        split at h
        · simp only [Option.some.injEq] at h
          subst h
          simp only [Option.some.injEq] at hp
          exact ⟨hp.symm, rfl⟩
        · split at h
          · simp only [Option.some.injEq] at h
            subst h
            simp only [Option.some.injEq] at hp
            exact ⟨hp.symm, rfl⟩
          · simp only [Option.some.injEq] at h
            subst h
            simp only [Option.some.injEq] at hp
            exact ⟨hp.symm, rfl⟩

theorem doEnroll_sends (env : EnrollEnv) (fuel : Nat) (frames : List String)
    (hcode : trim env.codeValue ≠ "")
    (hl : captureLoop env.snapBase64 env.rangeError (frameCount env.framesValue) fuel 0 [] =
      some (frames, none)) :
    ∃ out p, doEnroll fuel env = some out ∧ out.request = some p := by
  unfold doEnroll
  simp only [hcode, if_false, hl]
  split
  · exact ⟨_, _, rfl, rfl⟩
  · split
    · exact ⟨_, _, rfl, rfl⟩
    · exact ⟨_, _, rfl, rfl⟩

theorem doEnroll_overflow (env : EnrollEnv) (hcode : trim env.codeValue ≠ "")
    (hsnap : ∀ j, ∃ img, env.snapBase64 j = .ok img)
    (hbig : ∀ i, i < 2 ^ 32 → (frameCount env.framesValue).exceeds i = true) :
    (∀ fuel out, doEnroll fuel env = some out →
      out.request = none ∧ out.threw = some env.rangeError ∧ out.snapshots = 2 ^ 32) ∧
    (∀ fuel, 2 ^ 32 ≤ fuel → ∃ out, doEnroll fuel env = some out) := by
  have key := captureLoop_overflow env.snapBase64 env.rangeError (frameCount env.framesValue)
    hsnap hbig
  constructor
  · intro fuel out h
    unfold doEnroll at h
    simp only [hcode, if_false] at h
    rcases (key fuel 0 [] rfl (by norm_num)).1 with hn | ⟨fs, hfs, hlen⟩
    · rw [hn] at h
      cases h
    · rw [hfs] at h
      simp only [Option.some.injEq] at h
      subst h
      exact ⟨rfl, rfl, hlen⟩
  · intro fuel hf
    obtain ⟨fs, hfs, _⟩ := (key fuel 0 [] rfl (by norm_num)).2 (by omega)
    unfold doEnroll
    simp only [hcode, if_false, hfs]
    exact ⟨_, rfl⟩

/-- C8 (as the script behaves): for a non-blank code, every enroll request sent
carries the trimmed code and an images array of length `max(n, 0)`, below
`2^32`, one entry per snapshot taken, where `n` is the Number `parseInt` reads
from the frames field when that is truthy and 6 when it is `NaN` or 0.  With a
working camera, when `max(n, 0)` is below `2^32` the loop ends within that many
turns and the request is sent; when it is `2^32` or more, or unbounded, the
`push` that would make the array length `2^32` throws after `2^32` snapshots
and no request is sent.  The counts 1 and 2 are accepted, and a negative count
gives no snapshot. -/
theorem doEnroll_request (env : EnrollEnv) (hcode : trim env.codeValue ≠ "") :
    (((parseInt env.framesValue).truthy = false → frameCount env.framesValue = .int false 6) ∧
      ((parseInt env.framesValue).truthy = true →
        frameCount env.framesValue = parseInt env.framesValue)) ∧
    (∀ fuel out p, doEnroll fuel env = some out → out.request = some p →
      ∃ frames : List String,
        p = .obj [("code", .str (trim env.codeValue)), ("images", .arr (frames.map .str))] ∧
        (frameCount env.framesValue).turns = some frames.length ∧
        frames.length < 2 ^ 32 ∧
        out.snapshots = frames.length ∧
        ∀ k (hk : k < frames.length), env.snapBase64 k = .ok (frames.get ⟨k, hk⟩)) ∧
    ((∀ k, ∃ img, env.snapBase64 k = .ok img) →
      ∀ k, (frameCount env.framesValue).turns = some k → k < 2 ^ 32 →
        ∀ fuel, k ≤ fuel → ∃ out p, doEnroll fuel env = some out ∧ out.request = some p) ∧
    ((∀ k, ∃ img, env.snapBase64 k = .ok img) →
      ((frameCount env.framesValue).turns = none ∨
        ∃ k, (frameCount env.framesValue).turns = some k ∧ 2 ^ 32 ≤ k) →
      (∀ fuel out, doEnroll fuel env = some out →
        out.request = none ∧ out.threw = some env.rangeError ∧ out.snapshots = 2 ^ 32) ∧
      (∀ fuel, 2 ^ 32 ≤ fuel → ∃ out, doEnroll fuel env = some out)) ∧
    (frameCount "1" = .int false 1 ∧ frameCount "2" = .int false 2 ∧
      frameCount "-4" = .int true 4 ∧ (frameCount "-4").turns = some 0 ∧
      frameCount "" = .int false 6 ∧ frameCount "0" = .int false 6 ∧
      frameCount "abc" = .int false 6 ∧ frameCount " 12px" = .int false 12 ∧
      frameCount "4294967297" = .int false 4294967297 ∧
      frameCount "9007199254740993" = .int false 9007199254740992) := by
  refine ⟨⟨?_, ?_⟩, ?_, ?_, ?_, by decide⟩
  · intro h
    simp [frameCount, h]
  · intro h
    simp [frameCount, h]
  · intro fuel out p h hp
    obtain ⟨_, frames, hl, hpe, hsn⟩ := doEnroll_request_shape env fuel out p h hp
    obtain ⟨more, hfs, hex, hall, hget, hbound⟩ := captureLoop_done _ _ _ _ _ _ _ hl
    simp only [List.nil_append] at hfs
    subst hfs
    refine ⟨frames, hpe, ?_, ?_, hsn, ?_⟩
    · exact turns_of_exceeds _ _ (by simpa using hex) (fun j hj => by simpa using hall j hj)
    · rcases hbound with hm | hb
      · subst hm
        norm_num
      · exact hb
    · intro k hk
      simpa using hget k hk
  · intro hsnap k hk hbound fuel hfuel
    obtain ⟨fs, hfs⟩ := captureLoop_total env.snapBase64 env.rangeError _ k hsnap hk hbound
      fuel 0 [] rfl (by omega) (by omega)
    exact doEnroll_sends env fuel fs hcode hfs
  · intro hsnap hbig
    refine doEnroll_overflow env hcode hsnap ?_
    intro i hi
    rcases hbig with hnone | ⟨k, hk, hkb⟩
    · exact exceeds_of_unbounded _ _ hnone
    · rw [exceeds_of_turns _ k i hk]
      simp
      omega

/-- C8, witness: code ` E001 ` with 2 frames sends two images under the code
`E001`; with -4 frames the images array is empty. -/
theorem doEnroll_request_witness :
    trim " E001 " = "E001" ∧
    (∃ out p, doEnroll 2 (enrollEnvWith " E001 " "2") = some out ∧ out.request = some p) ∧
    (doEnroll 2 (enrollEnvWith " E001 " "2")).bind (fun o => o.request) =
      some (.obj [("code", .str "E001"),
        ("images", .arr [.str "data:image/jpeg;base64,AAAA", .str "data:image/jpeg;base64,AAAA"])]) ∧
    (doEnroll 0 (enrollEnvWith "E001" "-4")).bind (fun o => o.request) =
      some (.obj [("code", .str "E001"), ("images", .arr [])]) :=
  ⟨by decide,
    (doEnroll_request (enrollEnvWith " E001 " "2") (by decide)).2.2.1
      (fun _ => ⟨_, rfl⟩) 2 (by decide) (by norm_num) 2 (by decide),
    rfl, rfl⟩

/-- C8, counterexample: with `4294967297` in the frames field and a working
camera no run sends an enroll request, and the run with fuel `2^32` ends with
the RangeError after `2^32` snapshots, not after 4294967297. -/
theorem doEnroll_too_many_frames :
    trim "E001" ≠ "" ∧
    frameCount "4294967297" = .int false 4294967297 ∧
    (¬ ∃ fuel out p, doEnroll fuel (enrollEnvWith "E001" "4294967297") = some out ∧
        out.request = some p) ∧
    ∃ out, doEnroll (2 ^ 32) (enrollEnvWith "E001" "4294967297") = some out ∧
      out.snapshots = 2 ^ 32 ∧ out.request = none ∧
      out.threw = some ⟨"Invalid array length"⟩ := by
  have hcode : trim (enrollEnvWith "E001" "4294967297").codeValue ≠ "" := by decide
  have hcount : frameCount "4294967297" = .int false 4294967297 := by decide
  have hbig : ∀ i, i < 2 ^ 32 →
      (frameCount (enrollEnvWith "E001" "4294967297").framesValue).exceeds i = true := by
    intro i hi
    show (frameCount "4294967297").exceeds i = true
    rw [hcount]
    simp [Count.exceeds]
    omega
  have key := doEnroll_overflow (enrollEnvWith "E001" "4294967297") hcode
    (fun _ => ⟨_, rfl⟩) hbig
  refine ⟨by decide, hcount, ?_, ?_⟩
  · rintro ⟨fuel, out, p, h, hp⟩
    rw [(key.1 fuel out h).1] at hp
    cases hp
  · obtain ⟨out, hout⟩ := key.2 (2 ^ 32) (Nat.le_refl _)
    obtain ⟨h1, h2, h3⟩ := key.1 _ out hout
    exact ⟨out, hout, h3, h1, h2⟩

/-- C9: when the trimmed code is empty (the field is empty or holds only white
space) no frame is captured, no request is sent and the text written is
`กรอกรหัสก่อน`; the code of a request that is sent is the trimmed field value,
which is non-empty and neither begins nor ends with white space. -/
theorem doEnroll_blank_code (env : EnrollEnv) :
    (trim env.codeValue = "" ↔ ∀ c ∈ env.codeValue.data, isWhiteSpace c = true) ∧
    (trim env.codeValue = "" →
      ∀ fuel, doEnroll fuel env = some ⟨["กรอกรหัสก่อน"], 0, none, none⟩) ∧
    (∀ fuel out p, doEnroll fuel env = some out → out.request = some p →
      ∃ code : String, getProp p "code" = .str code ∧ code = trim env.codeValue ∧ code ≠ "" ∧
        (∀ c, code.data.head? = some c → isWhiteSpace c = false) ∧
        (∀ c, code.data.getLast? = some c → isWhiteSpace c = false)) := by
  refine ⟨trim_eq_empty_iff _, ?_, ?_⟩
  · intro h fuel
    unfold doEnroll
    simp [h]
  · intro fuel out p h hp
    obtain ⟨hne, frames, _, hpe, _⟩ := doEnroll_request_shape env fuel out p h hp
    refine ⟨trim env.codeValue, ?_, rfl, hne, trim_head_not_ws _, trim_last_not_ws _⟩
    rw [hpe]
    simp [getProp, lookupField]

/-- C9, witness: a code field holding a blank and a tab. -/
theorem doEnroll_blank_code_witness :
    trim " \t" = "" ∧
    doEnroll 6 (enrollEnvWith " \t" "3") = some ⟨["กรอกรหัสก่อน"], 0, none, none⟩ ∧
    getProp (((doEnroll 3 (enrollEnvWith "  E001\n" "3")).bind (fun o => o.request)).getD .null)
      "code" = .str "E001" :=
  ⟨by decide, (doEnroll_blank_code (enrollEnvWith " \t" "3")).2.1 (by decide) 6, rfl⟩

end AttendanceUI
